import Mathlib

/-!
Verification development for the tokencap LLM cost-governing gateway.

The TypeScript sources are shallowly embedded: JavaScript numbers are
modelled as exact rationals (ℚ), integer token counts as ℤ/ℕ, wall-clock
time as a logical clock ℕ, and the SQLite-backed ledger as a pure state
value.  Fallible or IO-bound code (HTTP handlers, upstream fetches) is
modelled as pure functions parameterised by the upstream outcome.
The tiktoken BPE encoders are third-party code not present in the
repository; they are modelled abstractly (see `Enc` and `BpeTokenizer`).
-/

set_option maxRecDepth 4000

/-- JavaScript Math.round: round half toward positive infinity. -/
def jsRound (q : ℚ) : ℤ := ⌊q + 1/2⌋

/-- The rounding applied on exposure in pricing.ts:
Math.round(x * 1_000_000) / 1_000_000. -/
def round6 (q : ℚ) : ℚ := (jsRound (q * 1000000) : ℚ) / 1000000

/-- JavaScript Math.ceil. -/
def jsCeil (q : ℚ) : ℤ := ⌈q⌉

/-- Substring occurrence on character lists (structural helper for
JavaScript String.prototype.includes). -/
def hasInf (pat : List Char) : List Char → Bool
  | [] => pat.isEmpty
  | c :: t => pat.isPrefixOf (c :: t) || hasInf pat t

/-- JavaScript String.prototype.includes (substring test). -/
def jsIncludes (s pat : String) : Bool := hasInf pat.data s.data

/-- JavaScript String.prototype.startsWith. -/
def jsStartsWith (s pat : String) : Bool := pat.data.isPrefixOf s.data

/-- JavaScript String.prototype.toLowerCase, via Char.toLower. -/
def strToLower (s : String) : String := String.mk (s.data.map Char.toLower)

/-- Replace the first occurrence of pat in s (structural helper). -/
def replaceFirstAux (pat repl : List Char) : List Char → List Char
  | [] => []
  | c :: t =>
    if pat.isPrefixOf (c :: t) then repl ++ (c :: t).drop pat.length
    else c :: replaceFirstAux pat repl t

/-- JavaScript String.prototype.replace with a string pattern replaces
only the first occurrence. -/
def jsReplaceFirst (s pat repl : String) : String :=
  String.mk (replaceFirstAux pat.data repl.data s.data)

/-- LLM providers (types.ts `Provider`). -/
inductive Provider
  | openai
  | anthropic
  | google
  | mistral
  | meta
deriving DecidableEq

/-- Estimate confidence label (types.ts). -/
inductive Confidence
  | high
  | medium
  | low
deriving DecidableEq

/-- One pricing row (pricing.ts `ModelPricing`).  Display-only metadata
fields (displayName, lastUpdated, notes) are omitted; they are never read
by any code path. -/
structure ModelPricing where
  provider : Provider
  model : String
  inputPricePerMillion : ℚ
  outputPricePerMillion : ℚ
  contextWindow : ℕ
  defaultMaxOutput : Option ℕ
  deprecated : Bool
deriving DecidableEq

/-- Abbreviated row constructor used to transcribe PRICING_DATA. -/
def row (p : Provider) (m : String) (inP outP : ℚ) (cw : ℕ)
    (dmo : Option ℕ) (dep : Bool) : ModelPricing :=
  ⟨p, m, inP, outP, cw, dmo, dep⟩

/-- The static pricing catalog (pricing.ts `PRICING_DATA`), in declaration
order. -/
def PRICING_DATA : List ModelPricing := [
  -- OpenAI: GPT-4o series
  row .openai "gpt-4o" 2.50 10.00 128000 (some 16384) false,
  row .openai "gpt-4o-2024-11-20" 2.50 10.00 128000 (some 16384) false,
  row .openai "gpt-4o-2024-08-06" 2.50 10.00 128000 (some 16384) false,
  row .openai "gpt-4o-2024-05-13" 5.00 15.00 128000 (some 4096) true,
  -- GPT-4o Mini
  row .openai "gpt-4o-mini" 0.15 0.60 128000 (some 16384) false,
  row .openai "gpt-4o-mini-2024-07-18" 0.15 0.60 128000 (some 16384) false,
  -- GPT-4.1
  row .openai "gpt-4.1" 2.00 8.00 128000 (some 16384) false,
  -- GPT-4 Turbo
  row .openai "gpt-4-turbo" 10.00 30.00 128000 (some 4096) false,
  row .openai "gpt-4-turbo-2024-04-09" 10.00 30.00 128000 (some 4096) false,
  row .openai "gpt-4-turbo-preview" 10.00 30.00 128000 (some 4096) true,
  -- GPT-4 original
  row .openai "gpt-4" 30.00 60.00 8192 (some 4096) true,
  row .openai "gpt-4-0613" 30.00 60.00 8192 (some 4096) true,
  row .openai "gpt-4-32k" 60.00 120.00 32768 (some 4096) true,
  -- GPT-3.5 Turbo
  row .openai "gpt-3.5-turbo" 0.50 1.50 16385 (some 4096) false,
  row .openai "gpt-3.5-turbo-0125" 0.50 1.50 16385 (some 4096) false,
  row .openai "gpt-3.5-turbo-1106" 1.00 2.00 16385 (some 4096) true,
  row .openai "gpt-3.5-turbo-instruct" 1.50 2.00 4096 (some 4096) false,
  -- o1 reasoning models
  row .openai "o1" 15.00 60.00 200000 (some 100000) false,
  row .openai "o1-2024-12-17" 15.00 60.00 200000 (some 100000) false,
  row .openai "o1-preview" 15.00 60.00 128000 (some 32768) true,
  row .openai "o1-mini" 3.00 12.00 128000 (some 65536) false,
  row .openai "o1-mini-2024-09-12" 3.00 12.00 128000 (some 65536) false,
  -- o3 models
  row .openai "o3" 2.00 8.00 200000 (some 100000) false,
  row .openai "o3-mini" 1.10 4.40 200000 (some 65536) false,
  -- o4 models
  row .openai "o4-mini" 1.10 4.40 200000 (some 65536) false,
  -- Anthropic: Claude 4.5 series
  row .anthropic "claude-opus-4-5-20251101" 5.00 25.00 200000 (some 8192) false,
  row .anthropic "claude-sonnet-4-5-20250514" 3.00 15.00 200000 (some 8192) false,
  row .anthropic "claude-haiku-4-5-20251101" 1.00 5.00 200000 (some 8192) false,
  -- Claude 4 series
  row .anthropic "claude-opus-4-1-20251101" 15.00 75.00 200000 (some 8192) false,
  row .anthropic "claude-opus-4-20250514" 15.00 75.00 200000 (some 8192) false,
  row .anthropic "claude-sonnet-4-20250514" 3.00 15.00 200000 (some 8192) false,
  -- Claude 3.7
  row .anthropic "claude-3-7-sonnet-20250219" 3.00 15.00 200000 (some 8192) true,
  -- Claude 3.5
  row .anthropic "claude-3-5-sonnet-20241022" 3.00 15.00 200000 (some 8192) false,
  row .anthropic "claude-3-5-sonnet-20240620" 3.00 15.00 200000 (some 8192) false,
  row .anthropic "claude-3-5-haiku-20241022" 0.80 4.00 200000 (some 8192) false,
  -- Claude 3
  row .anthropic "claude-3-opus-20240229" 15.00 75.00 200000 (some 4096) true,
  row .anthropic "claude-3-sonnet-20240229" 3.00 15.00 200000 (some 4096) true,
  row .anthropic "claude-3-haiku-20240307" 0.25 1.25 200000 (some 4096) false,
  -- Claude aliases stored as rows
  row .anthropic "claude-3-5-sonnet" 3.00 15.00 200000 (some 8192) false,
  row .anthropic "claude-3-5-haiku" 0.80 4.00 200000 (some 8192) false,
  row .anthropic "claude-3-opus" 15.00 75.00 200000 (some 4096) true,
  row .anthropic "claude-3-sonnet" 3.00 15.00 200000 (some 4096) true,
  row .anthropic "claude-3-haiku" 0.25 1.25 200000 (some 4096) false,
  -- Google: Gemini 2.5
  row .google "gemini-2.5-pro" 1.25 10.00 1000000 (some 8192) false,
  row .google "gemini-2.5-flash" 0.30 2.50 1000000 (some 8192) false,
  -- Gemini 2.0
  row .google "gemini-2.0-flash" 0.10 0.40 1000000 (some 8192) false,
  row .google "gemini-2.0-flash-lite" 0.08 0.30 1000000 (some 8192) false,
  row .google "gemini-2.0-flash-exp" 0.10 0.40 1000000 (some 8192) false,
  -- Gemini 1.5
  row .google "gemini-1.5-pro" 1.25 5.00 2000000 (some 8192) false,
  row .google "gemini-1.5-pro-latest" 1.25 5.00 2000000 (some 8192) false,
  row .google "gemini-1.5-flash" 0.075 0.30 1000000 (some 8192) false,
  row .google "gemini-1.5-flash-latest" 0.075 0.30 1000000 (some 8192) false,
  row .google "gemini-1.5-flash-8b" 0.0375 0.15 1000000 (some 8192) false,
  -- Gemini 1.0 legacy
  row .google "gemini-1.0-pro" 0.50 1.50 32768 (some 8192) true,
  row .google "gemini-pro" 0.50 1.50 32768 (some 8192) true,
  -- Mistral premier
  row .mistral "mistral-large-latest" 0.50 1.50 128000 (some 8192) false,
  row .mistral "mistral-large" 0.50 1.50 128000 (some 8192) false,
  row .mistral "mistral-large-2411" 0.50 1.50 128000 (some 8192) false,
  row .mistral "mistral-medium-latest" 0.40 2.00 128000 (some 8192) false,
  row .mistral "mistral-medium" 0.40 2.00 128000 (some 8192) false,
  row .mistral "mistral-small-latest" 0.10 0.30 128000 (some 8192) false,
  row .mistral "mistral-small" 0.10 0.30 128000 (some 8192) false,
  -- Ministral edge models
  row .mistral "ministral-3b-latest" 0.10 0.10 128000 (some 8192) false,
  row .mistral "ministral-3b" 0.10 0.10 128000 (some 8192) false,
  row .mistral "ministral-8b-latest" 0.15 0.15 128000 (some 8192) false,
  row .mistral "ministral-8b" 0.15 0.15 128000 (some 8192) false,
  row .mistral "ministral-14b-latest" 0.20 0.20 128000 (some 8192) false,
  row .mistral "ministral-14b" 0.20 0.20 128000 (some 8192) false,
  -- Mistral specialized
  row .mistral "magistral-medium-latest" 2.00 5.00 128000 (some 8192) false,
  row .mistral "codestral-latest" 0.30 0.90 32000 (some 8192) false,
  row .mistral "codestral" 0.30 0.90 32000 (some 8192) false,
  row .mistral "codestral-mamba-latest" 0.25 0.25 256000 (some 8192) false,
  -- Mistral legacy
  row .mistral "open-mistral-7b" 0.25 0.25 32000 (some 8192) true,
  row .mistral "open-mixtral-8x7b" 0.70 0.70 32000 (some 8192) true,
  row .mistral "open-mixtral-8x22b" 2.00 6.00 64000 (some 8192) false,
  -- Meta Llama 3.1
  row .meta "llama-3.1-405b-instruct" 3.00 3.00 131072 (some 4096) false,
  row .meta "llama-3.1-405b" 3.00 3.00 131072 (some 4096) false,
  row .meta "llama-3.1-70b-instruct" 0.88 0.88 131072 (some 4096) false,
  row .meta "llama-3.1-70b" 0.88 0.88 131072 (some 4096) false,
  row .meta "llama-3.1-8b-instruct" 0.18 0.18 131072 (some 4096) false,
  row .meta "llama-3.1-8b" 0.18 0.18 131072 (some 4096) false,
  -- Llama 3.2
  row .meta "llama-3.2-90b-vision-instruct" 1.20 1.20 131072 (some 4096) false,
  row .meta "llama-3.2-11b-vision-instruct" 0.18 0.18 131072 (some 4096) false,
  row .meta "llama-3.2-3b-instruct" 0.06 0.06 131072 (some 4096) false,
  row .meta "llama-3.2-1b-instruct" 0.04 0.04 131072 (some 4096) false,
  -- Llama 3.3
  row .meta "llama-3.3-70b-instruct" 0.60 0.60 131072 (some 4096) false,
  -- DeepInfra-specific Llama rows
  row .meta "meta-llama/Llama-3.1-70B-Instruct" 0.04 0.04 131072 (some 4096) false,
  row .meta "meta-llama/Llama-3.1-8B-Instruct" 0.003 0.005 131072 (some 4096) false]

/-- Lookup keyed by model name alone.  pricing.ts builds a Map with
`set`, so a later row with the same model name overwrites an earlier
one: the last matching row wins. -/
def pricingByModel (m : String) : Option ModelPricing :=
  (PRICING_DATA.filter (fun r => r.model = m)).getLast?

/-- Lookup keyed by provider and model (last matching row wins). -/
def pricingByProviderModel (p : Provider) (m : String) : Option ModelPricing :=
  (PRICING_DATA.filter (fun r => r.provider = p ∧ r.model = m)).getLast?

/-- MODEL_ALIASES from pricing.ts, already keyed by lowercase name. -/
def MODEL_ALIASES (m : String) : Option (Provider × String) :=
  if m = "gpt4o" then some (.openai, "gpt-4o")
  else if m = "gpt4o-mini" then some (.openai, "gpt-4o-mini")
  else if m = "gpt4-turbo" then some (.openai, "gpt-4-turbo")
  else if m = "gpt4" then some (.openai, "gpt-4")
  else if m = "gpt35" then some (.openai, "gpt-3.5-turbo")
  else if m = "gpt-35-turbo" then some (.openai, "gpt-3.5-turbo")
  else if m = "claude-opus" then some (.anthropic, "claude-opus-4-5-20251101")
  else if m = "claude-sonnet" then some (.anthropic, "claude-sonnet-4-5-20250514")
  else if m = "claude-haiku" then some (.anthropic, "claude-haiku-4-5-20251101")
  else if m = "claude-3.5-sonnet" then some (.anthropic, "claude-3-5-sonnet-20241022")
  else if m = "claude-3.5-haiku" then some (.anthropic, "claude-3-5-haiku-20241022")
  else if m = "gemini-pro" then some (.google, "gemini-1.5-pro")
  else if m = "gemini-flash" then some (.google, "gemini-2.0-flash")
  else if m = "gemini" then some (.google, "gemini-2.0-flash")
  else if m = "mistral" then some (.mistral, "mistral-large-latest")
  else if m = "llama-405b" then some (.meta, "llama-3.1-405b-instruct")
  else if m = "llama-70b" then some (.meta, "llama-3.1-70b-instruct")
  else if m = "llama-8b" then some (.meta, "llama-3.1-8b-instruct")
  else if m = "llama3" then some (.meta, "llama-3.1-70b-instruct")
  else none

/-- pricing.ts getModelPricing: direct match, alias, then the ordered
chain of partial-match patterns; null on a miss. -/
def getModelPricing (model : String) : Option ModelPricing :=
  match pricingByModel model with
  | some r => some r
  | none =>
    match MODEL_ALIASES (strToLower model) with
    | some (p, m) => pricingByProviderModel p m
    | none =>
      let ml := strToLower model
      if jsIncludes ml "gpt-4o-mini" || jsStartsWith ml "gpt-4o-mini" then pricingByModel "gpt-4o-mini"
      else if jsIncludes ml "gpt-4o" || jsStartsWith ml "gpt-4o" then pricingByModel "gpt-4o"
      else if jsIncludes ml "gpt-4-turbo" then pricingByModel "gpt-4-turbo"
      else if jsIncludes ml "gpt-4" then pricingByModel "gpt-4"
      else if jsIncludes ml "gpt-3.5" then pricingByModel "gpt-3.5-turbo"
      else if jsStartsWith ml "o1-mini" then pricingByModel "o1-mini"
      else if jsStartsWith ml "o1" then pricingByModel "o1"
      else if jsStartsWith ml "o3-mini" then pricingByModel "o3-mini"
      else if jsStartsWith ml "o3" then pricingByModel "o3"
      else if jsIncludes ml "opus-4-5" || jsIncludes ml "opus-4.5" then pricingByProviderModel .anthropic "claude-opus-4-5-20251101"
      else if jsIncludes ml "sonnet-4-5" || jsIncludes ml "sonnet-4.5" then pricingByProviderModel .anthropic "claude-sonnet-4-5-20250514"
      else if jsIncludes ml "haiku-4-5" || jsIncludes ml "haiku-4.5" then pricingByProviderModel .anthropic "claude-haiku-4-5-20251101"
      else if jsIncludes ml "claude-3-5-sonnet" || jsIncludes ml "claude-3.5-sonnet" then pricingByProviderModel .anthropic "claude-3-5-sonnet-20241022"
      else if jsIncludes ml "claude-3-5-haiku" || jsIncludes ml "claude-3.5-haiku" then pricingByProviderModel .anthropic "claude-3-5-haiku-20241022"
      else if jsIncludes ml "claude-3-opus" then pricingByProviderModel .anthropic "claude-3-opus-20240229"
      else if jsIncludes ml "claude-3-sonnet" then pricingByProviderModel .anthropic "claude-3-sonnet-20240229"
      else if jsIncludes ml "claude-3-haiku" then pricingByProviderModel .anthropic "claude-3-haiku-20240307"
      else if jsIncludes ml "gemini-2.5-pro" then pricingByModel "gemini-2.5-pro"
      else if jsIncludes ml "gemini-2.5-flash" then pricingByModel "gemini-2.5-flash"
      else if jsIncludes ml "gemini-2.0-flash" then pricingByModel "gemini-2.0-flash"
      else if jsIncludes ml "gemini-1.5-pro" then pricingByModel "gemini-1.5-pro"
      else if jsIncludes ml "gemini-1.5-flash" then pricingByModel "gemini-1.5-flash"
      else if jsIncludes ml "mistral-large" then pricingByModel "mistral-large-latest"
      else if jsIncludes ml "mistral-medium" then pricingByModel "mistral-medium-latest"
      else if jsIncludes ml "mistral-small" then pricingByModel "mistral-small-latest"
      else if jsIncludes ml "llama-3.1-405b" || jsIncludes ml "llama-3-1-405b" then pricingByModel "llama-3.1-405b-instruct"
      else if jsIncludes ml "llama-3.1-70b" || jsIncludes ml "llama-3-1-70b" then pricingByModel "llama-3.1-70b-instruct"
      else if jsIncludes ml "llama-3.1-8b" || jsIncludes ml "llama-3-1-8b" then pricingByModel "llama-3.1-8b-instruct"
      else none

/-- pricing.ts getModelPricingByProvider. -/
def getModelPricingByProvider (p : Provider) (m : String) : Option ModelPricing :=
  (pricingByProviderModel p m).orElse (fun _ => getModelPricing m)

/-- Cost breakdown as returned by calculateCostByProvider. -/
structure CostParts where
  inputCostUsd : ℚ
  outputCostUsd : ℚ
  totalCostUsd : ℚ
deriving DecidableEq

/-- pricing.ts calculateCostByProvider: prices fall back to 2.50/10.00
when the model is unknown; each returned component is rounded to 1e-6,
the total being rounded from the unrounded sum. -/
def calculateCostByProvider (p : Provider) (m : String)
    (inputTokens outputTokens : ℤ) : CostParts :=
  let pricing := getModelPricingByProvider p m
  let inputPrice := (pricing.map (fun r => r.inputPricePerMillion)).getD 2.50
  let outputPrice := (pricing.map (fun r => r.outputPricePerMillion)).getD 10.00
  let inputCostUsd := ((inputTokens : ℚ) / 1000000) * inputPrice
  let outputCostUsd := ((outputTokens : ℚ) / 1000000) * outputPrice
  let totalCostUsd := inputCostUsd + outputCostUsd
  ⟨round6 inputCostUsd, round6 outputCostUsd, round6 totalCostUsd⟩

/-- pricing.ts getModelPricingWithFallback: on a miss, a synthetic
default row (2.50/10.00, 128k context, no defaultMaxOutput). -/
def getModelPricingWithFallback (p : Provider) (m : String) : ModelPricing :=
  match getModelPricingByProvider p m with
  | some pricing => pricing
  | none => ⟨p, m, 2.50, 10.00, 128000, none, false⟩

/-- The two tiktoken encodings selected by tokenizer.ts getEncoder. -/
inductive EncoderKind
  | o200k
  | cl100k
deriving DecidableEq

/-- Abstract tiktoken encoders: the token-list length of encode(text).
The tiktoken library is third-party code not in the repository, so the
two encoders are a parameter of the embedding. -/
def Enc := EncoderKind → String → ℕ

/-- tokenizer.ts getEncoder: o200k_base for models whose lowercase name
contains "gpt-4o" or "o1", cl100k_base otherwise. -/
def getEncoderKind (model : String) : EncoderKind :=
  let ml := strToLower model
  if jsIncludes ml "gpt-4o" || jsIncludes ml "o1" then .o200k else .cl100k

/-- tokenizer.ts countTokens (empty text short-circuits to 0). -/
def countTokens (E : Enc) (text : String) (model : String) : ℕ :=
  if text = "" then 0 else E (getEncoderKind model) text

/-- message.function_call (name and arguments are encoded). -/
structure FunctionCall where
  name : String
  arguments : String
deriving DecidableEq

/-- One entry of message.tool_calls; only .function.name and
.function.arguments are read, so the wrapper object is flattened. -/
structure ToolCall where
  name : String
  arguments : String
deriving DecidableEq

/-- types.ts OpenAIMessage (fields read by the tokenizer). -/
structure OpenAIMessage where
  role : String
  content : Option String
  name : Option String
  function_call : Option FunctionCall
  tool_calls : Option (List ToolCall)
deriving DecidableEq

/-- A function (or tool.function) definition; `parameters` carries the
JSON.stringify of the parameter object when present. -/
structure FunctionDef where
  name : String
  description : Option String
  parameters : Option String
deriving DecidableEq

/-- types.ts OpenAIChatRequest (fields read by the proxy/tokenizer). -/
structure OpenAIChatRequest where
  model : String
  messages : List OpenAIMessage
  max_tokens : Option ℚ
  stream : Bool
  functions : Option (List FunctionDef)
  tools : Option (List FunctionDef)
deriving DecidableEq

/-- tokenizer.ts countOpenAIMessageTokens.  JavaScript truthiness on
content/name skips empty strings; gpt-3.5-turbo-0301 gets 4 tokens per
message and -1 per name. -/
def countOpenAIMessageTokens (E : Enc) (messages : List OpenAIMessage)
    (model : String) : ℤ :=
  let k := getEncoderKind model
  let ml := strToLower model
  let tokensPerMessage : ℤ := if jsIncludes ml "gpt-3.5-turbo-0301" then 4 else 3
  let tokensPerName : ℤ := if jsIncludes ml "gpt-3.5-turbo-0301" then -1 else 1
  (messages.foldl (fun acc m =>
    acc + tokensPerMessage + (E k m.role : ℤ)
    + (match m.content with
       | some c => if c = "" then 0 else (E k c : ℤ)
       | none => 0)
    + (match m.name with
       | some n => if n = "" then 0 else (E k n : ℤ) + tokensPerName
       | none => 0)
    + (match m.function_call with
       | some fc => (E k fc.name : ℤ) + (E k fc.arguments : ℤ) + 3
       | none => 0)
    + (match m.tool_calls with
       | some tcs =>
         tcs.foldl (fun a tc => a + (E k tc.name : ℤ) + (E k tc.arguments : ℤ) + 5) 0
       | none => 0)) 0) + 3

/-- tokenizer.ts countOpenAIFunctionsTokens: per-definition overhead 5
(functions) or 7 (tools), plus 9 per present collection. -/
def countOpenAIFunctionsTokens (E : Enc) (functions : Option (List FunctionDef))
    (tools : Option (List FunctionDef)) (model : String) : ℤ :=
  let k := getEncoderKind model
  let defTokens := fun (overhead : ℤ) (fn : FunctionDef) =>
    (E k fn.name : ℤ)
    + (match fn.description with
       | some d => if d = "" then 0 else (E k d : ℤ)
       | none => 0)
    + (match fn.parameters with
       | some ps => (E k ps : ℤ)
       | none => 0)
    + overhead
  (match functions with
   | some fns => (fns.foldl (fun a fn => a + defTokens 5 fn) 0) + 9
   | none => 0)
  + (match tools with
     | some ts => (ts.foldl (fun a t => a + defTokens 7 t) 0) + 9
     | none => 0)

/-- tokenizer.ts countOpenAIRequestTokens. -/
def countOpenAIRequestTokens (E : Enc) (req : OpenAIChatRequest) : ℤ :=
  countOpenAIMessageTokens E req.messages req.model
  + countOpenAIFunctionsTokens E req.functions req.tools req.model

/-- types.ts AnthropicContentBlock, restricted to the shape the
tokenizer reads; `toolUse.input` and tool input schemas carry their
JSON.stringify when present. -/
inductive ABlock
  | text (t : Option String)
  | toolUse (name : Option String) (input : Option String)
  | toolResult (content : Option (String ⊕ List ABlock))
  | image

mutual

/-- tokenizer.ts extractAnthropicText, per-block case. -/
def extractBlockText : ABlock → String
  | .text t =>
    match t with
    | some s => if s = "" then "" else s
    | none => ""
  | .toolUse name input => name.getD "" ++ " " ++ input.getD "\x7b\x7d"
  | .toolResult c =>
    match c with
    | some (.inl s) => s
    | some (.inr bs) => String.intercalate " " (extractBlockTexts bs)
    | none => ""
  | .image => ""

/-- Map extractBlockText over a block list (structural helper). -/
def extractBlockTexts : List ABlock → List String
  | [] => []
  | b :: bs => extractBlockText b :: extractBlockTexts bs

end

/-- tokenizer.ts extractAnthropicText on a message content value
(string or block array, blocks joined with a space). -/
def extractAnthropicText : String ⊕ List ABlock → String
  | .inl s => s
  | .inr bs => String.intercalate " " (extractBlockTexts bs)

/-- types.ts AnthropicMessage. -/
structure AnthropicMessage where
  role : String
  content : String ⊕ List ABlock

/-- types.ts Anthropic tool definition; input_schema is its
JSON.stringify. -/
structure AnthropicTool where
  name : String
  description : Option String
  input_schema : String
deriving DecidableEq

/-- types.ts AnthropicMessagesRequest (fields the proxy reads).
max_tokens is required by the TypeScript type but unvalidated at
runtime, hence Option. -/
structure AnthropicMessagesRequest where
  model : String
  messages : List AnthropicMessage
  max_tokens : Option ℚ
  system : Option String
  stream : Bool
  tools : Option (List AnthropicTool)

/-- tokenizer.ts countAnthropicMessageTokens: 4 tokens of role overhead
plus the cl100k length of the extracted text, per message. -/
def countAnthropicMessageTokens (E : Enc) (messages : List AnthropicMessage) : ℤ :=
  messages.foldl (fun a m => a + 4 + (E .cl100k (extractAnthropicText m.content) : ℤ)) 0

/-- tokenizer.ts countAnthropicToolsTokens: name + description (when
truthy) + stringified input_schema + 10 per tool. -/
def countAnthropicToolsTokens (E : Enc) (tools : Option (List AnthropicTool)) : ℤ :=
  match tools with
  | none => 0
  | some ts =>
    ts.foldl (fun a t =>
      a + (E .cl100k t.name : ℤ)
      + (match t.description with
         | some d => if d = "" then 0 else (E .cl100k d : ℤ)
         | none => 0)
      + (E .cl100k t.input_schema : ℤ) + 10) 0

/-- tokenizer.ts countAnthropicRequestTokens. -/
def countAnthropicRequestTokens (E : Enc) (req : AnthropicMessagesRequest) : ℤ :=
  (match req.system with
   | some s => if s = "" then 0 else (E .cl100k s : ℤ) + 4
   | none => 0)
  + countAnthropicMessageTokens E req.messages
  + countAnthropicToolsTokens E req.tools

/-- Result of estimateOutputTokens. -/
structure OutputEstimate where
  tokens : ℤ
  confidence : Confidence
deriving DecidableEq

/-- tokenizer.ts estimateOutputTokens: 75% of max_tokens (high) when
specified, else 50% of the model default (or 4096), medium. -/
def estimateOutputTokens (provider : Provider) (model : String)
    (maxTokens : Option ℚ) : OutputEstimate :=
  let pricing := getModelPricingWithFallback provider model
  match maxTokens with
  | some m => ⟨jsCeil (m * 0.75), .high⟩
  | none =>
    let defaultOutput : ℕ := pricing.defaultMaxOutput.getD 4096
    ⟨jsCeil ((defaultOutput : ℚ) * 0.5), .medium⟩

/-- types.ts CostEstimate. -/
structure CostEstimate where
  provider : Provider
  model : String
  inputTokens : ℤ
  estimatedOutputTokens : ℤ
  inputCostUsd : ℚ
  estimatedOutputCostUsd : ℚ
  totalEstimatedCostUsd : ℚ
  confidence : Confidence
deriving DecidableEq

/-- tokenizer.ts estimateOpenAICost. -/
def estimateOpenAICost (E : Enc) (req : OpenAIChatRequest) : CostEstimate :=
  let inputTokens := countOpenAIRequestTokens E req
  let outputEstimate := estimateOutputTokens .openai req.model req.max_tokens
  let cost := calculateCostByProvider .openai req.model inputTokens outputEstimate.tokens
  ⟨.openai, req.model, inputTokens, outputEstimate.tokens,
    cost.inputCostUsd, cost.outputCostUsd, cost.totalCostUsd,
    outputEstimate.confidence⟩

/-- tokenizer.ts estimateAnthropicCost. -/
def estimateAnthropicCost (E : Enc) (req : AnthropicMessagesRequest) : CostEstimate :=
  let inputTokens := countAnthropicRequestTokens E req
  let outputEstimate := estimateOutputTokens .anthropic req.model req.max_tokens
  let cost := calculateCostByProvider .anthropic req.model inputTokens outputEstimate.tokens
  ⟨.anthropic, req.model, inputTokens, outputEstimate.tokens,
    cost.inputCostUsd, cost.outputCostUsd, cost.totalCostUsd,
    outputEstimate.confidence⟩

/-- A budgets-table row (db.ts).  Wall-clock timestamps are a logical
clock ℕ; the string id column is not read anywhere and is omitted. -/
structure BudgetRow where
  limitUsd : ℚ
  spentUsd : ℚ
  periodStart : ℕ
  periodEnd : Option ℕ
  createdAt : ℕ
deriving DecidableEq

/-- A usage-table row (db.ts). -/
structure URec where
  projectId : String
  provider : Provider
  model : String
  inputTokens : ℤ
  outputTokens : ℤ
  costUsd : ℚ
  requestId : String
  createdAt : ℕ
deriving DecidableEq

/-- The persistent store: the usage table in insertion order, the
budgets table keyed by project_id, and a logical clock supplying
datetime('now'). -/
structure LedgerState where
  usage : List URec
  budgets : String → Option BudgetRow
  clock : ℕ

/-- The empty database. -/
def emptyLedger : LedgerState := ⟨[], fun _ => none, 0⟩

/-- db.ts getBudget. -/
def getBudget (st : LedgerState) (projectId : String) : Option BudgetRow :=
  st.budgets projectId

/-- db.ts getCurrentSpend. -/
def getCurrentSpend (st : LedgerState) (projectId : String) : ℚ :=
  ((getBudget st projectId).map (fun b => b.spentUsd)).getD 0

/-- db.ts updateBudgetSpent: SQL UPDATE, a no-op when no row matches. -/
def updateBudgetSpent (st : LedgerState) (projectId : String)
    (additionalCostUsd : ℚ) : LedgerState :=
  { st with budgets := fun q =>
      if q = projectId then
        (st.budgets q).map (fun b => { b with spentUsd := b.spentUsd + additionalCostUsd })
      else st.budgets q }

/-- db.ts recordUsage: append a usage row and increment the budget's
spent_usd; the logical clock advances. -/
def recordUsage (st : LedgerState) (projectId : String) (provider : Provider)
    (model : String) (inputTokens outputTokens : ℤ) (costUsd : ℚ)
    (requestId : String) : LedgerState :=
  let st1 : LedgerState :=
    { st with usage := st.usage ++
        [⟨projectId, provider, model, inputTokens, outputTokens, costUsd, requestId, st.clock⟩] }
  let st2 := updateBudgetSpent st1 projectId costUsd
  { st2 with clock := st.clock + 1 }

/-- The period end computed by setBudget; JavaScript truthiness makes
periodDays = 0 behave like no period. -/
def setPeriodEnd (clock : ℕ) (periodDays : Option ℕ) : Option ℕ :=
  match periodDays with
  | some d => if d = 0 then none else some (clock + d)
  | none => none

/-- The budgets row written by setBudget (upsert row computation). -/
def setBudgetRow (st : LedgerState) (projectId : String) (limitUsd : ℚ)
    (periodDays : Option ℕ) : BudgetRow :=
  match st.budgets projectId with
  | some b => ⟨limitUsd, b.spentUsd, st.clock, setPeriodEnd st.clock periodDays, b.createdAt⟩
  | none => ⟨limitUsd, 0, st.clock, setPeriodEnd st.clock periodDays, st.clock⟩

/-- db.ts setBudget: INSERT .. ON CONFLICT(project_id) DO UPDATE keeps
spent_usd and created_at of an existing row (only limit, period and
updated_at change); a fresh row starts at spent_usd = 0. -/
def setBudget (st : LedgerState) (projectId : String) (limitUsd : ℚ)
    (periodDays : Option ℕ) : LedgerState :=
  { st with
    budgets := fun q =>
      if q = projectId then some (setBudgetRow st projectId limitUsd periodDays)
      else st.budgets q,
    clock := st.clock + 1 }

/-- db.ts resetBudgetSpent: zero spent_usd and restart the period; SQL
UPDATE, hence a no-op when the project has no budget row. -/
def resetBudgetSpent (st : LedgerState) (projectId : String) : LedgerState :=
  { st with
    budgets := fun q =>
      if q = projectId then
        (st.budgets q).map (fun b => { b with spentUsd := 0, periodStart := st.clock })
      else st.budgets q,
    clock := st.clock + 1 }

/-- db.ts deleteBudget (the state part; the changed-rows result is
(getBudget st p).isSome). -/
def deleteBudget (st : LedgerState) (projectId : String) : LedgerState :=
  { st with
    budgets := fun q => if q = projectId then none else st.budgets q,
    clock := st.clock + 1 }

/-- db.ts getUsageSummary result shape (types.ts UsageSummary). -/
structure UsageSummary where
  projectId : String
  totalRequests : ℕ
  totalInputTokens : ℤ
  totalOutputTokens : ℤ
  totalCostUsd : ℚ
  budgetLimitUsd : Option ℚ
  budgetRemainingUsd : Option ℚ
deriving DecidableEq

/-- Sum of cost_usd over all usage rows of a project (the SQL aggregate
in getUsageSummary). -/
def totalCostOf (st : LedgerState) (projectId : String) : ℚ :=
  ((st.usage.filter (fun r => r.projectId = projectId)).map (fun r => r.costUsd)).sum

/-- db.ts getUsageSummary. -/
def getUsageSummary (st : LedgerState) (projectId : String) : UsageSummary :=
  let rows := st.usage.filter (fun r => r.projectId = projectId)
  let budget := getBudget st projectId
  ⟨projectId, rows.length,
    (rows.map (fun r => r.inputTokens)).sum,
    (rows.map (fun r => r.outputTokens)).sum,
    (rows.map (fun r => r.costUsd)).sum,
    budget.map (fun b => b.limitUsd),
    budget.map (fun b => b.limitUsd - b.spentUsd)⟩

/-- types.ts BudgetCheckResult.  The human-readable reason strings keep
only their fixed text; the interpolated numbers of the source message
are carried by the structured fields. -/
structure BudgetCheckResult where
  allowed : Bool
  currentSpendUsd : ℚ
  limitUsd : Option ℚ
  estimatedCostUsd : ℚ
  remainingAfterRequestUsd : Option ℚ
  reason : Option String
deriving DecidableEq

/-- budget.ts checkBudget, with datetime now as the logical clock. -/
def checkBudget (st : LedgerState) (now : ℕ) (projectId : String)
    (estimatedCost : CostEstimate) : BudgetCheckResult :=
  match getBudget st projectId with
  | none =>
    ⟨true, getCurrentSpend st projectId, none,
      estimatedCost.totalEstimatedCostUsd, none, none⟩
  | some budget =>
    if budget.periodEnd.any (fun pe => pe < now) then
      ⟨true, budget.spentUsd, some budget.limitUsd,
        estimatedCost.totalEstimatedCostUsd, none,
        some "Budget period has expired. Consider resetting the budget."⟩
    else
      let currentSpend := budget.spentUsd
      let remainingBudget := budget.limitUsd - currentSpend
      let estimatedCostUsd := estimatedCost.totalEstimatedCostUsd
      let remainingAfterRequest := remainingBudget - estimatedCostUsd
      if estimatedCostUsd > remainingBudget then
        ⟨false, currentSpend, some budget.limitUsd, estimatedCostUsd,
          some remainingAfterRequest, some "Request would exceed budget."⟩
      else
        ⟨true, currentSpend, some budget.limitUsd, estimatedCostUsd,
          some remainingAfterRequest, none⟩

/-- budget.ts getRemainingBudget. -/
def getRemainingBudget (st : LedgerState) (projectId : String) : Option ℚ :=
  (getBudget st projectId).map (fun b => max 0 (b.limitUsd - b.spentUsd))

/-- The details object of budget.ts formatBudgetError. -/
structure BudgetErrorDetails where
  currentSpendUsd : ℚ
  limitUsd : Option ℚ
  estimatedCostUsd : ℚ
  remainingBudgetUsd : ℚ
deriving DecidableEq

/-- budget.ts formatBudgetError.  JavaScript truthiness: a limit of 0
(or null) makes the ternary yield 0 directly. -/
def formatBudgetError (checkResult : BudgetCheckResult) : BudgetErrorDetails :=
  let remainingBudget : ℚ :=
    match checkResult.limitUsd with
    | some l => if l = 0 then 0 else max 0 (l - checkResult.currentSpendUsd)
    | none => 0
  ⟨checkResult.currentSpendUsd, checkResult.limitUsd,
    checkResult.estimatedCostUsd, remainingBudget⟩

/-- types.ts ActualCost. -/
structure ActualCost where
  provider : Provider
  model : String
  inputTokens : ℤ
  outputTokens : ℤ
  inputCostUsd : ℚ
  outputCostUsd : ℚ
  totalCostUsd : ℚ
deriving DecidableEq

/-- The X-Tokencap-* response headers; `none` means the header is
absent.  Numeric header values keep their exact number (the .toFixed(6)
text rendering is abstracted away); requestId records only presence. -/
structure TokencapHeaders where
  requestId : Bool
  inputTokens : Option ℤ
  estimatedOutputTokens : Option ℤ
  estimatedCostUsd : Option ℚ
  confidence : Option Confidence
  outputTokens : Option ℤ
  costUsd : Option ℚ
  budgetRemaining : Option ℚ
deriving DecidableEq

/-- No Tokencap headers set. -/
def noHeaders : TokencapHeaders := ⟨false, none, none, none, none, none, none, none⟩

/-- proxy.ts addTokencapHeaders: always the four estimate headers;
actual and budget-remaining values only when provided (JavaScript skips
null and undefined budgetRemaining). -/
def addTokencapHeaders (h : TokencapHeaders) (estimate : CostEstimate)
    (actual : Option ActualCost) (budgetRemaining : Option ℚ) : TokencapHeaders :=
  { h with
    inputTokens := some estimate.inputTokens,
    estimatedOutputTokens := some estimate.estimatedOutputTokens,
    estimatedCostUsd := some estimate.totalEstimatedCostUsd,
    confidence := some estimate.confidence,
    outputTokens := match actual with
      | some a => some a.outputTokens
      | none => h.outputTokens,
    costUsd := match actual with
      | some a => some a.totalCostUsd
      | none => h.costUsd,
    budgetRemaining := match budgetRemaining with
      | some r => some r
      | none => h.budgetRemaining }

/-- A parsed upstream JSON body: an opaque payload, whether it carries
an `error` key, and the canonical usage pair (input/prompt tokens,
output/completion tokens) when present. -/
structure UpstreamBody where
  payload : String
  hasErrorKey : Bool
  usage : Option (ℤ × ℤ)
deriving DecidableEq

/-- Outcome of a buffered upstream fetch. -/
inductive Upstream
  | netError
  | reply (status : ℕ) (body : UpstreamBody)

/-- One line of an OpenAI SSE stream chunk, as the interceptor parses
it: a `data:` line records whether it contains "[DONE]" and the parsed
delta content (none when JSON parsing fails or no content is present). -/
inductive OSSELine
  | data (hasDone : Bool) (content : Option String)
  | other

/-- One parsed `data:` event of an Anthropic SSE stream. -/
inductive AnthEvt
  | messageStart (inputTokens : ℤ)
  | messageDelta (outputTokens : ℤ)
  | otherEvt

/-- One line of an Anthropic SSE stream chunk. -/
inductive ASSELine
  | data (evt : AnthEvt)
  | other

/-- Outcome of a streaming upstream fetch with line type L. -/
inductive StreamUpstream (L : Type)
  | netError
  | reply (status : ℕ) (hasBody : Bool) (errorText : String) (chunks : List (List L))

/-- proxy.ts proxyOpenAIStream token accounting: for every data line
not containing [DONE] whose delta content parses, add
Math.ceil(content.length / 4). -/
def openAIStreamOutputTokens (lines : List OSSELine) : ℕ :=
  lines.foldl (fun acc l =>
    match l with
    | .data false (some c) => acc + (c.length + 3) / 4
    | _ => acc) 0

/-- proxy.ts proxyAnthropicStream token accounting: message_start
overwrites the input count, message_delta overwrites the running output
count (the last observed value wins); input starts at the estimate. -/
def anthStreamTokens (initInput : ℤ) (lines : List ASSELine) : ℤ × ℤ :=
  lines.foldl (fun acc l =>
    match l with
    | .data (.messageStart i) => (i, acc.2)
    | .data (.messageDelta o) => (acc.1, o)
    | _ => acc) (initInput, 0)

/-- The body of a gateway response. -/
inductive RespBody
  | errorJson (errType : String)
  | budgetExceeded (details : BudgetErrorDetails)
  | upstreamEcho (body : UpstreamBody)
  | upstreamText (text : String)
  | jsonBody (body : UpstreamBody)
  | streamOpenAI (chunks : List (List OSSELine))
  | streamAnthropic (chunks : List (List ASSELine))

/-- A gateway response plus the resulting store state and whether the
upstream was contacted. -/
structure GatewayResult where
  status : ℕ
  body : RespBody
  headers : TokencapHeaders
  contactedUpstream : Bool
  state : LedgerState

/-- types.ts ProxyConfig (fields the proxy paths read). -/
structure GatewayConfig where
  openaiApiKey : Option String
  anthropicApiKey : Option String
  defaultProjectId : String
deriving DecidableEq

/-- proxy.ts getProjectId on the query/default part. -/
def getProjectIdQuery (queryPid : Option String) (config : GatewayConfig) : String :=
  match queryPid with
  | some q => if q = "" then config.defaultProjectId else q
  | none => config.defaultProjectId

/-- proxy.ts getProjectId: header, then query, then configured default
(JavaScript truthiness skips empty strings). -/
def getProjectId (headerPid queryPid : Option String) (config : GatewayConfig) : String :=
  match headerPid with
  | some h => if h = "" then getProjectIdQuery queryPid config else h
  | none => getProjectIdQuery queryPid config

/-- proxy.ts proxyOpenAI credential resolution:
c.req.header('Authorization')?.replace('Bearer ', '') ||
config.openaiApiKey (an empty string after stripping is falsy). -/
def resolveOpenAIKey (authHeader : Option String) (config : GatewayConfig) : Option String :=
  match authHeader with
  | some a =>
    let k := jsReplaceFirst a "Bearer " ""
    if k = "" then config.openaiApiKey else some k
  | none => config.openaiApiKey

/-- proxy.ts proxyAnthropic credential resolution:
c.req.header('X-API-Key') || config.anthropicApiKey. -/
def resolveAnthropicKey (xApiKeyHeader : Option String) (config : GatewayConfig) : Option String :=
  match xApiKeyHeader with
  | some a => if a = "" then config.anthropicApiKey else some a
  | none => config.anthropicApiKey

/-- proxy.ts proxyOpenAIStream (the part after credential resolution). -/
def proxyOpenAIStream (body : OpenAIChatRequest) (estimate : CostEstimate)
    (projectId requestId : String) (st : LedgerState)
    (up : StreamUpstream OSSELine) : GatewayResult :=
  match up with
  | .netError => ⟨502, .errorJson "upstream_error", noHeaders, true, st⟩
  | .reply status hasBody errorText chunks =>
    if ¬(200 ≤ status ∧ status < 300) ∨ ¬hasBody then
      ⟨status, .upstreamText errorText, noHeaders, true, st⟩
    else
      let outputTokens : ℤ := (openAIStreamOutputTokens chunks.flatten : ℤ)
      let actualCost := calculateCostByProvider .openai body.model estimate.inputTokens outputTokens
      let st1 := recordUsage st projectId .openai body.model estimate.inputTokens
        outputTokens actualCost.totalCostUsd requestId
      let headers : TokencapHeaders :=
        ⟨true, some estimate.inputTokens, some estimate.estimatedOutputTokens,
          some estimate.totalEstimatedCostUsd, none, none, none, none⟩
      ⟨200, .streamOpenAI chunks, headers, true, st1⟩

/-- proxy.ts proxyOpenAI.  The parsed request body, the buffered
upstream outcome and the streaming upstream outcome are parameters of
the embedding (they stand for c.req.json() and fetch). -/
def proxyOpenAI (E : Enc) (config : GatewayConfig) (st : LedgerState) (now : ℕ)
    (headerPid queryPid : Option String) (requestId : String)
    (authHeader : Option String) (parsedBody : Option OpenAIChatRequest)
    (up : Upstream) (sup : StreamUpstream OSSELine) : GatewayResult :=
  let projectId := getProjectId headerPid queryPid config
  match parsedBody with
  | none => ⟨400, .errorJson "invalid_request", noHeaders, false, st⟩
  | some body =>
    let estimate := estimateOpenAICost E body
    let budgetCheck := checkBudget st now projectId estimate
    if budgetCheck.allowed = false then
      let headers := addTokencapHeaders noHeaders estimate none budgetCheck.remainingAfterRequestUsd
      ⟨402, .budgetExceeded (formatBudgetError budgetCheck), headers, false, st⟩
    else
      match resolveOpenAIKey authHeader config with
      | none => ⟨401, .errorJson "invalid_request", noHeaders, false, st⟩
      | some _ =>
        if body.stream then
          proxyOpenAIStream body estimate projectId requestId st sup
        else
          match up with
          | .netError => ⟨502, .errorJson "upstream_error", noHeaders, true, st⟩
          | .reply status rbody =>
            if ¬(200 ≤ status ∧ status < 300) ∨ rbody.hasErrorKey then
              let headers := addTokencapHeaders noHeaders estimate none none
              ⟨status, .upstreamEcho rbody, headers, true, st⟩
            else
              let actualInputTokens := (rbody.usage.map Prod.fst).getD estimate.inputTokens
              let actualOutputTokens := (rbody.usage.map Prod.snd).getD 0
              let actualCost := calculateCostByProvider .openai body.model
                actualInputTokens actualOutputTokens
              let actual : ActualCost := ⟨.openai, body.model, actualInputTokens,
                actualOutputTokens, actualCost.inputCostUsd, actualCost.outputCostUsd,
                actualCost.totalCostUsd⟩
              let st1 := recordUsage st projectId .openai body.model actualInputTokens
                actualOutputTokens actual.totalCostUsd requestId
              let headers0 := addTokencapHeaders noHeaders estimate (some actual)
                (getRemainingBudget st1 projectId)
              ⟨200, .jsonBody rbody, { headers0 with requestId := true }, true, st1⟩

/-- proxy.ts proxyAnthropicStream (after credential resolution). -/
def proxyAnthropicStream (body : AnthropicMessagesRequest) (estimate : CostEstimate)
    (projectId requestId : String) (st : LedgerState)
    (up : StreamUpstream ASSELine) : GatewayResult :=
  match up with
  | .netError => ⟨502, .errorJson "upstream_error", noHeaders, true, st⟩
  | .reply status hasBody errorText chunks =>
    if ¬(200 ≤ status ∧ status < 300) ∨ ¬hasBody then
      ⟨status, .upstreamText errorText, noHeaders, true, st⟩
    else
      let toks := anthStreamTokens estimate.inputTokens chunks.flatten
      let actualCost := calculateCostByProvider .anthropic body.model toks.1 toks.2
      let st1 := recordUsage st projectId .anthropic body.model toks.1 toks.2
        actualCost.totalCostUsd requestId
      let headers : TokencapHeaders :=
        ⟨true, some estimate.inputTokens, some estimate.estimatedOutputTokens,
          some estimate.totalEstimatedCostUsd, none, none, none, none⟩
      ⟨200, .streamAnthropic chunks, headers, true, st1⟩

/-- proxy.ts proxyAnthropic; credentials come from the X-API-Key header
with fallback to the configured key. -/
def proxyAnthropic (E : Enc) (config : GatewayConfig) (st : LedgerState) (now : ℕ)
    (headerPid queryPid : Option String) (requestId : String)
    (xApiKeyHeader : Option String) (parsedBody : Option AnthropicMessagesRequest)
    (up : Upstream) (sup : StreamUpstream ASSELine) : GatewayResult :=
  let projectId := getProjectId headerPid queryPid config
  match parsedBody with
  | none => ⟨400, .errorJson "invalid_request", noHeaders, false, st⟩
  | some body =>
    let estimate := estimateAnthropicCost E body
    let budgetCheck := checkBudget st now projectId estimate
    if budgetCheck.allowed = false then
      let headers := addTokencapHeaders noHeaders estimate none budgetCheck.remainingAfterRequestUsd
      ⟨402, .budgetExceeded (formatBudgetError budgetCheck), headers, false, st⟩
    else
      match resolveAnthropicKey xApiKeyHeader config with
      | none => ⟨401, .errorJson "invalid_request", noHeaders, false, st⟩
      | some _ =>
        if body.stream then
          proxyAnthropicStream body estimate projectId requestId st sup
        else
          match up with
          | .netError => ⟨502, .errorJson "upstream_error", noHeaders, true, st⟩
          | .reply status rbody =>
            if ¬(200 ≤ status ∧ status < 300) ∨ rbody.hasErrorKey then
              let headers := addTokencapHeaders noHeaders estimate none none
              ⟨status, .upstreamEcho rbody, headers, true, st⟩
            else
              let actualInputTokens := (rbody.usage.map Prod.fst).getD estimate.inputTokens
              let actualOutputTokens := (rbody.usage.map Prod.snd).getD 0
              let actualCost := calculateCostByProvider .anthropic body.model
                actualInputTokens actualOutputTokens
              let actual : ActualCost := ⟨.anthropic, body.model, actualInputTokens,
                actualOutputTokens, actualCost.inputCostUsd, actualCost.outputCostUsd,
                actualCost.totalCostUsd⟩
              let st1 := recordUsage st projectId .anthropic body.model actualInputTokens
                actualOutputTokens actual.totalCostUsd requestId
              let headers0 := addTokencapHeaders noHeaders estimate (some actual)
                (getRemainingBudget st1 projectId)
              ⟨200, .jsonBody rbody, { headers0 with requestId := true }, true, st1⟩

/-- The JSON body of index.ts GET /v1/budget on the non-null branch. -/
structure BudgetView where
  projectId : String
  limitUsd : Option ℚ
  spentUsd : ℚ
  remainingUsd : Option ℚ
deriving DecidableEq

/-- index.ts GET /v1/budget handler: null when getRemainingBudget is
null, otherwise a view built from getUsageSummary (spentUsd is the
summary's totalCostUsd). -/
def getBudgetEndpoint (st : LedgerState) (projectId : String) : Option BudgetView :=
  match getRemainingBudget st projectId with
  | none => none
  | some _ =>
    let summary := getUsageSummary st projectId
    some ⟨projectId, summary.budgetLimitUsd, summary.totalCostUsd, summary.budgetRemainingUsd⟩

/-- The ledger operations of claim C2 (db.ts recordUsage, setBudget,
resetBudgetSpent), as trace events. -/
inductive LedgerOp
  | record (projectId : String) (provider : Provider) (model : String)
      (inputTokens outputTokens : ℤ) (costUsd : ℚ) (requestId : String)
  | setB (projectId : String) (limitUsd : ℚ) (periodDays : Option ℕ)
  | resetB (projectId : String)

/-- Interpret one ledger operation on the store. -/
def applyOp (st : LedgerState) : LedgerOp → LedgerState
  | .record p pr m i o c r => recordUsage st p pr m i o c r
  | .setB p l d => setBudget st p l d
  | .resetB p => resetBudgetSpent st p

/-- Run a trace from the empty store. -/
def runOps (ops : List LedgerOp) : LedgerState := ops.foldl applyOp emptyLedger

/-- Whether an operation is setBudget for project p. -/
def isSetB (p : String) : LedgerOp → Bool
  | .setB q _ _ => q = p
  | _ => false

/-- Whether a trace contains a setBudget for project p (budgets are
created only by setBudget, and this trace language cannot delete them). -/
def containsSetB (p : String) (ops : List LedgerOp) : Bool := ops.any (isSetB p)

/-- Reading the claimed invariant off a reversed trace: walking from
the most recent operation backwards, sum the costUsd of p's usage
records until reaching the budget's most recent reset (a
resetBudgetSpent that found a budget row) or its creation (the first
setBudget); a setBudget over an existing row preserves spent and is
skipped; operations on other projects are skipped. -/
def sumSinceRev (p : String) : List LedgerOp → ℚ
  | [] => 0
  | .record q _ _ _ _ c _ :: rest => (if q = p then c else 0) + sumSinceRev p rest
  | .setB q _ _ :: rest =>
    if q = p then (if containsSetB p rest then sumSinceRev p rest else 0)
    else sumSinceRev p rest
  | .resetB q :: rest =>
    if q = p then (if containsSetB p rest then 0 else sumSinceRev p rest)
    else sumSinceRev p rest

/-- The sum of costUsd over all usage records of p created since the
budget's creation or most recent reset, as a function of the trace. -/
def spentSinceCreationOrReset (ops : List LedgerOp) (p : String) : ℚ :=
  sumSinceRev p ops.reverse

/-- ASCII-only strings (byte-level BPE vocabularies cover these). -/
def isAsciiString (s : String) : Bool := s.data.all (fun c => c.toNat < 128)

/-- Concatenation of a list of strings. -/
def concatAll (l : List String) : String := String.mk ((l.map String.data).flatten)

/-- Modelled from the spec: the tiktoken BPE encoders (cl100k_base and
o200k_base) are third-party code absent from the repository.  Per spec
section 4.2 they are a 200k-vocabulary encoder and a 100k-vocabulary
encoder: an encoder tokenizes text into entries of a vocabulary of at
most 200000 entries, and the token count of a string is the length of
its tokenization.  Totality is required on ASCII strings, which a
byte-level BPE always covers. -/
structure BpeTokenizer where
  vocab : Finset String
  vocab_card : vocab.card ≤ 200000
  toks : String → List String
  toks_mem : ∀ s, isAsciiString s = true → ∀ t ∈ toks s, t ∈ vocab
  toks_join : ∀ s, isAsciiString s = true → concatAll (toks s) = s

/-- Token count assigned by an abstract BPE encoder. -/
def bpeLen (T : BpeTokenizer) (s : String) : ℕ := (T.toks s).length

/-- The stream output-token count the spec describes: the BPE token
count of each delta content fragment, summed over data events that are
not the [DONE] sentinel. -/
def specStreamOutputTokens (T : BpeTokenizer) (lines : List OSSELine) : ℕ :=
  lines.foldl (fun acc l =>
    match l with
    | .data false (some c) => acc + bpeLen T c
    | _ => acc) 0

/-- Claim C5 as a predicate on the (unknown) encoder: the interceptor's
accumulated count always equals the spec's BPE token sum. -/
def StreamCountClaim (T : BpeTokenizer) : Prop :=
  ∀ lines : List OSSELine, openAIStreamOutputTokens lines = specStreamOutputTokens T lines

/-- Flattening singleton lists is the identity. -/
theorem flatten_map_singleton {α : Type} (l : List α) :
    (l.map (fun c => [c])).flatten = l := by
  induction l with
  | nil => rfl
  | cons c cs ih => simp [ih]

/-- The ASCII single-byte tokenizer, witnessing that `BpeTokenizer` is
inhabited, so that refuting claim C5 for every tokenizer is not
vacuous. -/
def asciiSingletonTokenizer : BpeTokenizer where
  vocab := (Finset.range 128).image (fun n => String.mk [Char.ofNat n])
  vocab_card := le_trans Finset.card_image_le (by simp)
  toks s := s.data.map (fun c => String.mk [c])
  toks_mem := by
    intro s hs t ht
    simp only [List.mem_map] at ht
    obtain ⟨c, hc, rfl⟩ := ht
    simp only [isAsciiString, List.all_eq_true, decide_eq_true_eq] at hs
    refine Finset.mem_image.mpr ⟨c.toNat, Finset.mem_range.mpr (hs c hc), ?_⟩
    rw [Char.ofNat_toNat c]
  toks_join := by
    intro s _
    show String.mk _ = s
    rw [List.map_map]
    have h : (String.data ∘ fun c => String.mk [c]) = fun c => [c] := rfl
    rw [h, flatten_map_singleton]

/-- The output-estimation confidence is high (max_tokens given) or
medium (default path); the low label is unreachable. -/
theorem estimateOutputTokens_confidence (provider : Provider) (model : String)
    (mt : Option ℚ) : (estimateOutputTokens provider model mt).confidence ≠ Confidence.low := by
  cases mt <;> simp [estimateOutputTokens]

/-- C1: checkBudget admits when no budget row exists (reporting a null
limit), and with an unexpired budget rejects exactly when the estimated
total strictly exceeds limitUsd - spentUsd; in particular an estimate
equal to the remaining budget is admitted. -/
theorem c1_checkBudget_admission (st : LedgerState) (now : ℕ) (p : String)
    (est : CostEstimate) :
    (getBudget st p = none →
      (checkBudget st now p est).allowed = true
      ∧ (checkBudget st now p est).limitUsd = none)
    ∧ (∀ b, getBudget st p = some b →
        (∀ pe, b.periodEnd = some pe → ¬ pe < now) →
        ((checkBudget st now p est).allowed = false ↔
            est.totalEstimatedCostUsd > b.limitUsd - b.spentUsd)
        ∧ (est.totalEstimatedCostUsd = b.limitUsd - b.spentUsd →
            (checkBudget st now p est).allowed = true)) := by
  constructor
  · intro h
    simp [checkBudget, h]
  · intro b hb hun
    rcases hpe : b.periodEnd with _ | pe
    · constructor
      · by_cases hgt : est.totalEstimatedCostUsd > b.limitUsd - b.spentUsd
        · simp [checkBudget, hb, hpe, hgt]
        · simp [checkBudget, hb, hpe, hgt]
      · intro heq
        simp [checkBudget, hb, hpe, heq]
    · have hlt : ¬ pe < now := hun pe hpe
      constructor
      · by_cases hgt : est.totalEstimatedCostUsd > b.limitUsd - b.spentUsd
        · simp [checkBudget, hb, hpe, hlt, hgt]
        · simp [checkBudget, hb, hpe, hlt, hgt]
      · intro heq
        simp [checkBudget, hb, hpe, hlt, heq]

/-- Witness for C1: a budget of 10 with 4 spent admits an estimate of
exactly 6. -/
theorem c1_checkBudget_admission_witness :
    (checkBudget ⟨[], fun q => if q = "p1" then some ⟨10, 4, 0, none, 0⟩ else none, 1⟩
        5 "p1" ⟨.openai, "m", 0, 0, 0, 0, 6, .high⟩).allowed = true := by
  have h := (c1_checkBudget_admission
      ⟨[], fun q => if q = "p1" then some ⟨10, 4, 0, none, 0⟩ else none, 1⟩
      5 "p1" ⟨.openai, "m", 0, 0, 0, 0, 6, .high⟩).2
      ⟨10, 4, 0, none, 0⟩ (by rfl) (by intro pe hpe; simp at hpe)
  exact h.2 (by norm_num)

/-- Counterexample to C3: the request model "foobar" resolves to no
pricing row (the fallback is used), yet with max_tokens present the
estimate's confidence is high, not low. -/
theorem c3_counterexample :
    (estimateOpenAICost (fun _ _ => 0)
        ⟨"foobar", [], some 100, false, none, none⟩).confidence = Confidence.high
    ∧ getModelPricingByProvider .openai "foobar" = none
    ∧ Confidence.high ≠ Confidence.low := by
  refine ⟨rfl, rfl, by simp⟩

/-- C3 amended: the estimate's confidence equals the output-estimation
confidence (high with max_tokens, else medium) regardless of whether
the model resolved in the catalog; it is never demoted to low. -/
theorem c3_confidence_never_low (E : Enc) (reqO : OpenAIChatRequest)
    (reqA : AnthropicMessagesRequest) :
    (estimateOpenAICost E reqO).confidence ≠ Confidence.low
    ∧ (estimateAnthropicCost E reqA).confidence ≠ Confidence.low :=
  ⟨estimateOutputTokens_confidence .openai reqO.model reqO.max_tokens,
    estimateOutputTokens_confidence .anthropic reqA.model reqA.max_tokens⟩

/-- Counterexample to C4: with no request maximum and no model default
(the fallback row has none), the code estimates 2048 tokens with medium
confidence, not 4096 with low confidence. -/
theorem c4_counterexample :
    estimateOutputTokens .openai "foobar" none = ⟨2048, .medium⟩
    ∧ (getModelPricingWithFallback .openai "foobar").defaultMaxOutput = none
    ∧ ((2048 : ℤ) ≠ 4096 ∧ Confidence.medium ≠ Confidence.low) := by
  refine ⟨?_, rfl, by norm_num, by simp⟩
  have h : getModelPricingWithFallback Provider.openai "foobar" =
      ⟨.openai, "foobar", 2.50, 10.00, 128000, none, false⟩ := rfl
  simp only [estimateOutputTokens, h]
  norm_num [jsCeil]

/-- C4 amended: 75% of max_tokens rounded up with high confidence when
a maximum is given; otherwise the ceiling of half the model's default
maximum output with medium confidence; when the model default is also
absent, half of the 4096 fallback, i.e. 2048 tokens, still with medium
(not low) confidence. -/
theorem c4_estimateOutputTokens (provider : Provider) (model : String)
    (mt : Option ℚ) :
    (∀ q, mt = some q →
      estimateOutputTokens provider model mt = ⟨jsCeil (q * 0.75), .high⟩)
    ∧ (mt = none →
      estimateOutputTokens provider model mt =
        ⟨jsCeil ((((getModelPricingWithFallback provider model).defaultMaxOutput.getD 4096 : ℕ) : ℚ) * 0.5),
          .medium⟩)
    ∧ (mt = none →
      (getModelPricingWithFallback provider model).defaultMaxOutput = none →
      estimateOutputTokens provider model mt = ⟨2048, .medium⟩) := by
  refine ⟨?_, ?_, ?_⟩
  · intro q hq
    subst hq
    rfl
  · intro h
    subst h
    rfl
  · intro h hd
    subst h
    simp only [estimateOutputTokens, hd]
    norm_num [jsCeil]

/-- Witness for C4: unknown model, no max_tokens, yields 2048/medium. -/
theorem c4_estimateOutputTokens_witness :
    estimateOutputTokens .openai "foobar" none = ⟨2048, .medium⟩ :=
  (c4_estimateOutputTokens .openai "foobar" none).2.2 rfl rfl

/-- Rounding each addend and rounding the sum agree to within one unit. -/
theorem jsRound_add_bound (a b : ℚ) :
    |((jsRound a : ℚ) + (jsRound b : ℚ) - (jsRound (a + b) : ℚ))| ≤ 1 := by
  have fa1 : ((jsRound a : ℤ) : ℚ) ≤ a + 1/2 := Int.floor_le _
  have fa2 : a + 1/2 < (jsRound a : ℚ) + 1 := Int.lt_floor_add_one _
  have fb1 : ((jsRound b : ℤ) : ℚ) ≤ b + 1/2 := Int.floor_le _
  have fb2 : b + 1/2 < (jsRound b : ℚ) + 1 := Int.lt_floor_add_one _
  have fc1 : ((jsRound (a + b) : ℤ) : ℚ) ≤ a + b + 1/2 := Int.floor_le _
  have fc2 : a + b + 1/2 < (jsRound (a + b) : ℚ) + 1 := Int.lt_floor_add_one _
  have hub : (jsRound a : ℚ) + (jsRound b : ℚ) - (jsRound (a + b) : ℚ) < 3/2 := by
    linarith
  have hlb : (-(3/2) : ℚ) < (jsRound a : ℚ) + (jsRound b : ℚ) - (jsRound (a + b) : ℚ) := by
    linarith
  have hle : jsRound a + jsRound b - jsRound (a + b) ≤ 1 := by
    by_contra hc
    push_neg at hc
    have h2 : (2 : ℚ) ≤ ((jsRound a + jsRound b - jsRound (a + b) : ℤ) : ℚ) := by
      exact_mod_cast hc
    push_cast at h2
    linarith
  have hge : (-1 : ℤ) ≤ jsRound a + jsRound b - jsRound (a + b) := by
    by_contra hc
    push_neg at hc
    have h3 : jsRound a + jsRound b - jsRound (a + b) ≤ -2 := by omega
    have h2 : ((jsRound a + jsRound b - jsRound (a + b) : ℤ) : ℚ) ≤ -2 := by
      exact_mod_cast h3
    push_cast at h2
    linarith
  have habs : |jsRound a + jsRound b - jsRound (a + b)| ≤ 1 := abs_le.mpr ⟨hge, hle⟩
  calc |((jsRound a : ℚ) + (jsRound b : ℚ) - (jsRound (a + b) : ℚ))|
      = ((|jsRound a + jsRound b - jsRound (a + b)| : ℤ) : ℚ) := by push_cast; rfl
    _ ≤ 1 := by exact_mod_cast habs

/-- Counterexample to C8: for gpt-4o-mini with 2 input and 4 output
tokens the exposed components are 0, 2e-6 and 3e-6: the sum of the
rounded parts misses the rounded total by a full 1e-6, far beyond the
claimed 1e-9 tolerance. -/
theorem c8_counterexample :
    (calculateCostByProvider .openai "gpt-4o-mini" 2 4).inputCostUsd
        + (calculateCostByProvider .openai "gpt-4o-mini" 2 4).outputCostUsd
      ≠ (calculateCostByProvider .openai "gpt-4o-mini" 2 4).totalCostUsd
    ∧ |(calculateCostByProvider .openai "gpt-4o-mini" 2 4).inputCostUsd
        + (calculateCostByProvider .openai "gpt-4o-mini" 2 4).outputCostUsd
        - (calculateCostByProvider .openai "gpt-4o-mini" 2 4).totalCostUsd|
      > 1/1000000000 := by
  have h : getModelPricingByProvider .openai "gpt-4o-mini" =
      some (row .openai "gpt-4o-mini" 0.15 0.60 128000 (some 16384) false) := rfl
  refine ⟨?_, ?_⟩
  · simp only [calculateCostByProvider, h, row, round6, jsRound]
    norm_num
  · simp only [calculateCostByProvider, h, row, round6, jsRound]
    norm_num
    rw [abs_of_pos (by norm_num : (0:ℚ) < 1/1000000)]
    norm_num

/-- C8 amended: each component is tokens * pricePerMillion / 1e6; the
total is rounded from the unrounded sum (no double rounding), but all
three exposed values are individually rounded to 1e-6, so the exposed
identity inputCostUsd + outputCostUsd = totalCostUsd only holds to
within 1e-6, not 1e-9. -/
theorem c8_cost_roundtrip (p : Provider) (m : String) (i o : ℤ) :
    (calculateCostByProvider p m i o).inputCostUsd =
      round6 (((i : ℚ) / 1000000) *
        (((getModelPricingByProvider p m).map (fun r => r.inputPricePerMillion)).getD 2.50))
    ∧ (calculateCostByProvider p m i o).outputCostUsd =
      round6 (((o : ℚ) / 1000000) *
        (((getModelPricingByProvider p m).map (fun r => r.outputPricePerMillion)).getD 10.00))
    ∧ (calculateCostByProvider p m i o).totalCostUsd =
      round6 ((((i : ℚ) / 1000000) *
          (((getModelPricingByProvider p m).map (fun r => r.inputPricePerMillion)).getD 2.50))
        + (((o : ℚ) / 1000000) *
          (((getModelPricingByProvider p m).map (fun r => r.outputPricePerMillion)).getD 10.00)))
    ∧ |(calculateCostByProvider p m i o).inputCostUsd
        + (calculateCostByProvider p m i o).outputCostUsd
        - (calculateCostByProvider p m i o).totalCostUsd| ≤ 1/1000000 := by
  refine ⟨rfl, rfl, rfl, ?_⟩
  simp only [calculateCostByProvider, round6]
  set a := ((i : ℚ) / 1000000) *
    (((getModelPricingByProvider p m).map (fun r => r.inputPricePerMillion)).getD 2.50) with ha
  set b := ((o : ℚ) / 1000000) *
    (((getModelPricingByProvider p m).map (fun r => r.outputPricePerMillion)).getD 10.00) with hb
  have harg : (a + b) * 1000000 = a * 1000000 + b * 1000000 := by ring
  rw [harg]
  have h := jsRound_add_bound (a * 1000000) (b * 1000000)
  have heq : (jsRound (a * 1000000) : ℚ) / 1000000 + (jsRound (b * 1000000) : ℚ) / 1000000
      - (jsRound (a * 1000000 + b * 1000000) : ℚ) / 1000000
      = ((jsRound (a * 1000000) : ℚ) + (jsRound (b * 1000000) : ℚ)
        - (jsRound (a * 1000000 + b * 1000000) : ℚ)) / 1000000 := by ring
  rw [heq, abs_div]
  rw [show |(1000000 : ℚ)| = 1000000 by norm_num]
  gcongr

/-- recordUsage's effect on the budgets table. -/
theorem recordUsage_budgets (st : LedgerState) (p' : String) (pr : Provider)
    (m : String) (i o : ℤ) (c : ℚ) (r : String) (p : String) :
    (recordUsage st p' pr m i o c r).budgets p =
      if p = p' then (st.budgets p).map (fun b => { b with spentUsd := b.spentUsd + c })
      else st.budgets p := rfl

/-- setBudget's effect on the budgets table. -/
theorem setBudget_budgets (st : LedgerState) (p' : String) (l : ℚ)
    (d : Option ℕ) (p : String) :
    (setBudget st p' l d).budgets p =
      if p = p' then some (setBudgetRow st p' l d) else st.budgets p := rfl

/-- resetBudgetSpent's effect on the budgets table. -/
theorem resetBudgetSpent_budgets (st : LedgerState) (p' : String) (p : String) :
    (resetBudgetSpent st p').budgets p =
      if p = p' then (st.budgets p).map (fun b => { b with spentUsd := 0, periodStart := st.clock })
      else st.budgets p := rfl

/-- Running a trace extended by one operation. -/
theorem runOps_append (ops : List LedgerOp) (op : LedgerOp) :
    runOps (ops ++ [op]) = applyOp (runOps ops) op := by
  simp [runOps, List.foldl_append]

/-- A project has a budget row exactly when the trace contains a
setBudget for it. -/
theorem budgets_isSome (ops : List LedgerOp) (p : String) :
    ((runOps ops).budgets p).isSome = containsSetB p ops := by
  induction ops using List.reverseRecOn with
  | nil => rfl
  | append_singleton ops op ih =>
    rw [runOps_append]
    have hc : containsSetB p (ops ++ [op]) = (containsSetB p ops || isSetB p op) := by
      simp [containsSetB]
    rw [hc]
    cases op with
    | record q pr m i o c r =>
      simp only [applyOp]
      rw [recordUsage_budgets]
      by_cases h : p = q
      · subst h
        simp [ih, isSetB]
      · simp [h, ih, isSetB]
    | setB q l d =>
      simp only [applyOp]
      rw [setBudget_budgets]
      by_cases h : p = q
      · subst h
        simp [isSetB]
      · simp [h, ih, isSetB, Ne.symm h]
    | resetB q =>
      simp only [applyOp]
      rw [resetBudgetSpent_budgets]
      by_cases h : p = q
      · subst h
        simp [ih, isSetB]
      · simp [h, ih, isSetB]

/-- C2: for every trace of recordUsage / setBudget / resetBudgetSpent
operations from the empty store and every project with a budget row,
the row's spentUsd equals the sum of costUsd over the project's usage
records created since the budget's creation or most recent reset. -/
theorem c2_spent_invariant (ops : List LedgerOp) (p : String) :
    ∀ b, (runOps ops).budgets p = some b →
      b.spentUsd = spentSinceCreationOrReset ops p := by
  induction ops using List.reverseRecOn with
  | nil =>
    intro b hb
    simp [runOps, emptyLedger] at hb
  | append_singleton ops op ih =>
    intro b hb
    rw [runOps_append] at hb
    have hrev : (ops ++ [op]).reverse = op :: ops.reverse := by simp
    have hcontains : containsSetB p ops.reverse = containsSetB p ops := by
      simp [containsSetB]
    rw [spentSinceCreationOrReset, hrev]
    cases op with
    | record q pr m i o c r =>
      simp only [applyOp] at hb
      rw [recordUsage_budgets] at hb
      by_cases h : p = q
      · subst h
        rw [if_pos rfl] at hb
        rw [Option.map_eq_some'] at hb
        obtain ⟨b0, hb0, hfb⟩ := hb
        rw [sumSinceRev, if_pos rfl]
        have := ih b0 hb0
        rw [spentSinceCreationOrReset] at this
        rw [← hfb]
        simp only []
        rw [this]
        ring
      · rw [if_neg h] at hb
        rw [sumSinceRev, if_neg (fun hq => h hq.symm)]
        have := ih b hb
        rw [spentSinceCreationOrReset] at this
        rw [this]
        ring
    | setB q l d =>
      simp only [applyOp] at hb
      rw [setBudget_budgets] at hb
      by_cases h : p = q
      · subst h
        rw [if_pos rfl] at hb
        rw [Option.some_inj] at hb
        rw [sumSinceRev, if_pos rfl, hcontains]
        cases hrow : (runOps ops).budgets p with
        | none =>
          have hfalse : containsSetB p ops = false := by
            rw [← budgets_isSome, hrow]
            rfl
          rw [hfalse]
          simp only [if_neg Bool.false_ne_true]
          rw [← hb]
          simp [setBudgetRow, hrow]
        | some b0 =>
          have htrue : containsSetB p ops = true := by
            rw [← budgets_isSome, hrow]
            rfl
          rw [htrue, if_pos rfl]
          have := ih b0 hrow
          rw [spentSinceCreationOrReset] at this
          rw [← hb]
          simp only [setBudgetRow, hrow]
          exact this
      · rw [if_neg h] at hb
        rw [sumSinceRev, if_neg (fun hq => h hq.symm)]
        have := ih b hb
        rw [spentSinceCreationOrReset] at this
        exact this
    | resetB q =>
      simp only [applyOp] at hb
      rw [resetBudgetSpent_budgets] at hb
      by_cases h : p = q
      · subst h
        rw [if_pos rfl] at hb
        rw [Option.map_eq_some'] at hb
        obtain ⟨b0, hb0, hfb⟩ := hb
        have htrue : containsSetB p ops = true := by
          rw [← budgets_isSome, hb0]
          rfl
        rw [sumSinceRev, if_pos rfl, hcontains, htrue, if_pos rfl]
        rw [← hfb]
      · rw [if_neg h] at hb
        rw [sumSinceRev, if_neg (fun hq => h hq.symm)]
        have := ih b hb
        rw [spentSinceCreationOrReset] at this
        exact this

/-- Witness for C2: the trace set(10), charge 3, reset, charge 2 leaves
spentUsd = 2, the sum of charges since the reset. -/
theorem c2_spent_invariant_witness :
    (⟨10, 2, 2, none, 0⟩ : BudgetRow).spentUsd =
      spentSinceCreationOrReset
        [.setB "p" 10 none, .record "p" .openai "m" 1 2 3 "r1",
          .resetB "p", .record "p" .openai "m" 1 2 2 "r2"] "p" := by
  apply c2_spent_invariant
  simp only [runOps, List.foldl_cons, List.foldl_nil, applyOp, emptyLedger,
    setBudget, setBudgetRow, setPeriodEnd, recordUsage, updateBudgetSpent,
    resetBudgetSpent]
  norm_num

/-- C9: the GET /v1/budget handler reports spentUsd as the all-time
sum of cost_usd over the project's usage records
(getUsageSummary().totalCostUsd), not the budget row's spent_usd;
after a reset it still reports the pre-reset historical spend (3),
while the spent_usd used by admission is 0. -/
theorem c9_budget_endpoint :
    (∀ st p b, getBudget st p = some b →
      ∃ v, getBudgetEndpoint st p = some v
        ∧ v.spentUsd = (getUsageSummary st p).totalCostUsd
        ∧ v.spentUsd = totalCostOf st p)
    ∧ (∃ v, getBudgetEndpoint
          (runOps [.setB "p4" 10 none, .record "p4" .openai "m" 1 2 3 "r1", .resetB "p4"])
          "p4" = some v
        ∧ v.spentUsd = 3
        ∧ getCurrentSpend
            (runOps [.setB "p4" 10 none, .record "p4" .openai "m" 1 2 3 "r1", .resetB "p4"])
            "p4" = 0
        ∧ (3 : ℚ) ≠ 0) := by
  constructor
  · intro st p b hb
    have hr : getRemainingBudget st p = some (max 0 (b.limitUsd - b.spentUsd)) := by
      simp [getRemainingBudget, hb]
    refine ⟨⟨p, (getUsageSummary st p).budgetLimitUsd, (getUsageSummary st p).totalCostUsd,
      (getUsageSummary st p).budgetRemainingUsd⟩, ?_, rfl, rfl⟩
    simp [getBudgetEndpoint, hr]
  · refine ⟨⟨"p4", some 10, 3, some 10⟩, ?_, rfl, ?_, by norm_num⟩
    · simp only [runOps, List.foldl_cons, List.foldl_nil, applyOp, emptyLedger,
        setBudget, setBudgetRow, setPeriodEnd, recordUsage, updateBudgetSpent,
        resetBudgetSpent, getBudgetEndpoint, getRemainingBudget, getBudget,
        getUsageSummary, totalCostOf]
      norm_num
    · simp only [runOps, List.foldl_cons, List.foldl_nil, applyOp, emptyLedger,
        setBudget, setBudgetRow, setPeriodEnd, recordUsage, updateBudgetSpent,
        resetBudgetSpent, getCurrentSpend, getBudget]
      norm_num

/-- Concrete evaluation of the estimator on an empty-message gpt-4o
request with max_tokens 200000: 3 input tokens (assistant priming
only), 150000 estimated output tokens, and a total estimate of
1.500008 USD, independent of the encoder and the stream flag. -/
theorem est_gpt4o_eval (E : Enc) (b : Bool) :
    estimateOpenAICost E ⟨"gpt-4o", [], some 200000, b, none, none⟩ =
    ⟨.openai, "gpt-4o", 3, 150000, 8/1000000, 3/2, 1500008/1000000, .high⟩ := by
  have h : getModelPricingByProvider .openai "gpt-4o" =
      some (row .openai "gpt-4o" 2.50 10.00 128000 (some 16384) false) := rfl
  have h2 : getModelPricingWithFallback Provider.openai "gpt-4o" =
      row .openai "gpt-4o" 2.50 10.00 128000 (some 16384) false := by
    simp [getModelPricingWithFallback, h]
  simp only [estimateOpenAICost, countOpenAIRequestTokens, countOpenAIMessageTokens,
    countOpenAIFunctionsTokens, estimateOutputTokens, h2, h, calculateCostByProvider,
    round6, jsRound, jsCeil, row, List.foldl_nil]
  norm_num

/-- Counterexample to C10: a budget-rejected (402, non-streaming)
response carries a strictly negative X-Tokencap-Budget-Remaining value
(remainingAfterRequestUsd = 0.5 - 1.500008). -/
theorem c10_counterexample :
    (proxyOpenAI (fun _ _ => 0) ⟨none, none, "d"⟩
        ⟨[], fun q => if q = "d" then some ⟨1/2, 0, 0, none, 0⟩ else none, 1⟩ 0
        none none "r" none (some ⟨"gpt-4o", [], some 200000, false, none, none⟩)
        .netError .netError).headers.budgetRemaining = some (1/2 - 1500008/1000000)
    ∧ ((1:ℚ)/2 - 1500008/1000000) < 0
    ∧ (proxyOpenAI (fun _ _ => 0) ⟨none, none, "d"⟩
        ⟨[], fun q => if q = "d" then some ⟨1/2, 0, 0, none, 0⟩ else none, 1⟩ 0
        none none "r" none (some ⟨"gpt-4o", [], some 200000, false, none, none⟩)
        .netError .netError).status = 402 := by
  have hpid : getProjectId none none (⟨none, none, "d"⟩ : GatewayConfig) = "d" := rfl
  have hcheck : checkBudget
      ⟨[], fun q => if q = "d" then some ⟨1/2, 0, 0, none, 0⟩ else none, 1⟩ 0 "d"
      (⟨.openai, "gpt-4o", 3, 150000, 8/1000000, 3/2, 1500008/1000000, .high⟩ : CostEstimate) =
      ⟨false, 0, some (1/2), 1500008/1000000, some (1/2 - 1500008/1000000),
        some "Request would exceed budget."⟩ := by
    have hb : getBudget ⟨[], fun q => if q = "d" then some ⟨1/2, 0, 0, none, 0⟩ else none, 1⟩ "d" =
        some ⟨1/2, 0, 0, none, 0⟩ := rfl
    simp only [checkBudget, hb]
    norm_num
  refine ⟨?_, by norm_num, ?_⟩ <;>
    simp only [proxyOpenAI, hpid, est_gpt4o_eval, hcheck, addTokencapHeaders, noHeaders] <;>
    norm_num

/-- C10 amended: getRemainingBudget clamps at zero and is never
negative; consequently the X-Tokencap-Budget-Remaining header of any
response of either non-streaming proxy handler is nonnegative except
on 402 budget-rejected responses, whose header carries the possibly
negative remainingAfterRequestUsd. -/
theorem c10_remaining_nonneg :
    (∀ st p b, getBudget st p = some b →
      getRemainingBudget st p = some (max 0 (b.limitUsd - b.spentUsd))
      ∧ (0 : ℚ) ≤ max 0 (b.limitUsd - b.spentUsd))
    ∧ (∀ (E : Enc) (config : GatewayConfig) (st : LedgerState) (now : ℕ)
        (hp qp : Option String) (rid : String) (auth : Option String)
        (pb : Option OpenAIChatRequest) (up : Upstream) (sup : StreamUpstream OSSELine)
        (r : ℚ),
        (proxyOpenAI E config st now hp qp rid auth pb up sup).headers.budgetRemaining = some r →
        0 ≤ r ∨ (proxyOpenAI E config st now hp qp rid auth pb up sup).status = 402)
    ∧ (∀ (E : Enc) (config : GatewayConfig) (st : LedgerState) (now : ℕ)
        (hp qp : Option String) (rid : String) (auth : Option String)
        (pb : Option AnthropicMessagesRequest) (up : Upstream) (sup : StreamUpstream ASSELine)
        (r : ℚ),
        (proxyAnthropic E config st now hp qp rid auth pb up sup).headers.budgetRemaining = some r →
        0 ≤ r ∨ (proxyAnthropic E config st now hp qp rid auth pb up sup).status = 402) := by
  refine ⟨?_, ?_, ?_⟩
  · intro st p b hb
    exact ⟨by simp [getRemainingBudget, hb], le_max_left _ _⟩
  · intro E config st now hp qp rid auth pb up sup
    unfold proxyOpenAI
    cases pb with
    | none => intro r h; simp [noHeaders] at h
    | some body =>
      simp only []
      split
      · intro r h
        right
        rfl
      · split
        · intro r h; simp [noHeaders] at h
        · split
          · unfold proxyOpenAIStream
            split
            · intro r h; simp [noHeaders] at h
            · split
              · intro r h; simp [noHeaders] at h
              · intro r h; simp at h
          · split
            · intro r h; simp [noHeaders] at h
            · split
              · intro r h
                simp [addTokencapHeaders, noHeaders] at h
              · intro r h
                left
                simp only [addTokencapHeaders, noHeaders] at h
                rcases hg : getRemainingBudget
                    (recordUsage st (getProjectId hp qp config) Provider.openai body.model _ _ _ rid)
                    (getProjectId hp qp config) with _ | r'
                · rw [hg] at h
                  simp at h
                · rw [hg] at h
                  simp at h
                  obtain ⟨b0, _, hr'⟩ := Option.map_eq_some'.mp hg
                  subst h
                  rw [← hr']
                  exact le_max_left _ _
  · intro E config st now hp qp rid auth pb up sup
    unfold proxyAnthropic
    cases pb with
    | none => intro r h; simp [noHeaders] at h
    | some body =>
      simp only []
      split
      · intro r h
        right
        rfl
      · split
        · intro r h; simp [noHeaders] at h
        · split
          · unfold proxyAnthropicStream
            split
            · intro r h; simp [noHeaders] at h
            · split
              · intro r h; simp [noHeaders] at h
              · intro r h; simp at h
          · split
            · intro r h; simp [noHeaders] at h
            · split
              · intro r h
                simp [addTokencapHeaders, noHeaders] at h
              · intro r h
                left
                simp only [addTokencapHeaders, noHeaders] at h
                rcases hg : getRemainingBudget
                    (recordUsage st (getProjectId hp qp config) Provider.anthropic body.model _ _ _ rid)
                    (getProjectId hp qp config) with _ | r'
                · rw [hg] at h
                  simp at h
                · rw [hg] at h
                  simp at h
                  obtain ⟨b0, _, hr'⟩ := Option.map_eq_some'.mp hg
                  subst h
                  rw [← hr']
                  exact le_max_left _ _

/-- Witness for C10: a budget of 10 with 4 spent yields remaining 6. -/
theorem c10_remaining_nonneg_witness :
    getRemainingBudget ⟨[], fun q => if q = "p1" then some ⟨10, 4, 0, none, 0⟩ else none, 1⟩ "p1"
      = some (max 0 ((10 : ℚ) - 4))
    ∧ (0 : ℚ) ≤ max 0 ((10 : ℚ) - 4) :=
  c10_remaining_nonneg.1 ⟨[], fun q => if q = "p1" then some ⟨10, 4, 0, none, 0⟩ else none, 1⟩
    "p1" ⟨10, 4, 0, none, 0⟩ (by rfl)

/-- Counterexample to C7: with no Authorization header and no
configured key the gateway returns 401 with error kind
invalid_request, which differs from the claimed unauthorized kind. -/
theorem c7_counterexample :
    proxyOpenAI (fun _ _ => 0) ⟨none, none, "d"⟩ emptyLedger 0 none none "r" none
        (some ⟨"gpt-4o", [], some 200000, false, none, none⟩) .netError .netError =
      ⟨401, .errorJson "invalid_request", noHeaders, false, emptyLedger⟩
    ∧ "invalid_request" ≠ "unauthorized" := by
  refine ⟨?_, by simp⟩
  have hallow : (checkBudget emptyLedger 0 (getProjectId none none ⟨none, none, "d"⟩)
      (estimateOpenAICost (fun _ _ => 0) ⟨"gpt-4o", [], some 200000, false, none, none⟩)).allowed
      = true := rfl
  simp only [proxyOpenAI, hallow, resolveOpenAIKey]
  simp

/-- C7 amended: a proxied request with no provider-native auth header
and no configured default credential is answered 401 before the
upstream is contacted and without touching the ledger, but the error
kind is invalid_request, not unauthorized. -/
theorem c7_missing_credentials :
    (∀ (E : Enc) (config : GatewayConfig) (st : LedgerState) (now : ℕ)
        (hp qp : Option String) (rid : String) (body : OpenAIChatRequest)
        (up : Upstream) (sup : StreamUpstream OSSELine),
      config.openaiApiKey = none →
      (checkBudget st now (getProjectId hp qp config) (estimateOpenAICost E body)).allowed = true →
      proxyOpenAI E config st now hp qp rid none (some body) up sup =
        ⟨401, .errorJson "invalid_request", noHeaders, false, st⟩)
    ∧ (∀ (E : Enc) (config : GatewayConfig) (st : LedgerState) (now : ℕ)
        (hp qp : Option String) (rid : String) (body : AnthropicMessagesRequest)
        (up : Upstream) (sup : StreamUpstream ASSELine),
      config.anthropicApiKey = none →
      (checkBudget st now (getProjectId hp qp config) (estimateAnthropicCost E body)).allowed = true →
      proxyAnthropic E config st now hp qp rid none (some body) up sup =
        ⟨401, .errorJson "invalid_request", noHeaders, false, st⟩)
    ∧ "invalid_request" ≠ "unauthorized" := by
  refine ⟨?_, ?_, by simp⟩
  · intro E config st now hp qp rid body up sup hkey hallow
    have hra : resolveOpenAIKey none config = none := by
      simp [resolveOpenAIKey, hkey]
    simp only [proxyOpenAI, hallow, hra]
    simp
  · intro E config st now hp qp rid body up sup hkey hallow
    have hra : resolveAnthropicKey none config = none := by
      simp [resolveAnthropicKey, hkey]
    simp only [proxyAnthropic, hallow, hra]
    simp

/-- Witness for C7 amended: concrete 401 on the OpenAI path. -/
theorem c7_missing_credentials_witness :
    proxyOpenAI (fun _ _ => 0) ⟨none, none, "d"⟩ emptyLedger 0 none none "r" none
        (some ⟨"gpt-4o", [], some 200000, false, none, none⟩) .netError .netError =
      ⟨401, .errorJson "invalid_request", noHeaders, false, emptyLedger⟩ :=
  c7_missing_credentials.1 (fun _ _ => 0) ⟨none, none, "d"⟩ emptyLedger 0 none none "r"
    ⟨"gpt-4o", [], some 200000, false, none, none⟩ .netError .netError rfl rfl

/-- Counterexample to C6: on the streaming path a non-2xx upstream is
proxied with its status and body, but with no Tokencap estimate
headers attached (contrary to the claim); the ledger stays untouched. -/
theorem c6_counterexample :
    proxyOpenAI (fun _ _ => 0) ⟨some "k", none, "d"⟩ emptyLedger 0 none none "r" none
        (some ⟨"gpt-4o", [], some 200000, true, none, none⟩) .netError
        (.reply 500 true "eb" []) =
      ⟨500, .upstreamText "eb", noHeaders, true, emptyLedger⟩
    ∧ noHeaders.inputTokens = none ∧ noHeaders.confidence = none := by
  refine ⟨?_, rfl, rfl⟩
  have hallow : (checkBudget emptyLedger 0 (getProjectId none none ⟨some "k", none, "d"⟩)
      (estimateOpenAICost (fun _ _ => 0)
        ⟨"gpt-4o", [], some 200000, true, none, none⟩)).allowed = true := rfl
  simp only [proxyOpenAI, proxyOpenAIStream, hallow, resolveOpenAIKey]
  rw [if_pos (Or.inl (by norm_num : ¬((200:ℕ) ≤ 500 ∧ (500:ℕ) < 300)))]
  simp

/-- C6 amended: on a non-2xx upstream reply the gateway responds with
the upstream status and body and performs no ledger write on either
path; the four estimate headers are attached on the buffered path
only, while the streaming error path carries no Tokencap headers. -/
theorem c6_upstream_error :
    (∀ (E : Enc) (config : GatewayConfig) (st : LedgerState) (now : ℕ)
        (hp qp : Option String) (rid : String) (auth : Option String) (k : String)
        (body : OpenAIChatRequest) (status : ℕ) (rbody : UpstreamBody)
        (sup : StreamUpstream OSSELine),
      body.stream = false →
      (checkBudget st now (getProjectId hp qp config) (estimateOpenAICost E body)).allowed = true →
      resolveOpenAIKey auth config = some k →
      ¬(200 ≤ status ∧ status < 300) →
      proxyOpenAI E config st now hp qp rid auth (some body) (.reply status rbody) sup =
        ⟨status, .upstreamEcho rbody,
          addTokencapHeaders noHeaders (estimateOpenAICost E body) none none, true, st⟩)
    ∧ (∀ (E : Enc) (config : GatewayConfig) (st : LedgerState) (now : ℕ)
        (hp qp : Option String) (rid : String) (auth : Option String) (k : String)
        (body : OpenAIChatRequest) (up : Upstream) (status : ℕ) (hasBody : Bool)
        (errText : String) (chunks : List (List OSSELine)),
      body.stream = true →
      (checkBudget st now (getProjectId hp qp config) (estimateOpenAICost E body)).allowed = true →
      resolveOpenAIKey auth config = some k →
      ¬(200 ≤ status ∧ status < 300) →
      proxyOpenAI E config st now hp qp rid auth (some body) up
          (.reply status hasBody errText chunks) =
        ⟨status, .upstreamText errText, noHeaders, true, st⟩)
    ∧ (∀ (E : Enc) (config : GatewayConfig) (st : LedgerState) (now : ℕ)
        (hp qp : Option String) (rid : String) (auth : Option String) (k : String)
        (body : AnthropicMessagesRequest) (status : ℕ) (rbody : UpstreamBody)
        (sup : StreamUpstream ASSELine),
      body.stream = false →
      (checkBudget st now (getProjectId hp qp config) (estimateAnthropicCost E body)).allowed = true →
      resolveAnthropicKey auth config = some k →
      ¬(200 ≤ status ∧ status < 300) →
      proxyAnthropic E config st now hp qp rid auth (some body) (.reply status rbody) sup =
        ⟨status, .upstreamEcho rbody,
          addTokencapHeaders noHeaders (estimateAnthropicCost E body) none none, true, st⟩)
    ∧ (∀ (E : Enc) (config : GatewayConfig) (st : LedgerState) (now : ℕ)
        (hp qp : Option String) (rid : String) (auth : Option String) (k : String)
        (body : AnthropicMessagesRequest) (up : Upstream) (status : ℕ) (hasBody : Bool)
        (errText : String) (chunks : List (List ASSELine)),
      body.stream = true →
      (checkBudget st now (getProjectId hp qp config) (estimateAnthropicCost E body)).allowed = true →
      resolveAnthropicKey auth config = some k →
      ¬(200 ≤ status ∧ status < 300) →
      proxyAnthropic E config st now hp qp rid auth (some body) up
          (.reply status hasBody errText chunks) =
        ⟨status, .upstreamText errText, noHeaders, true, st⟩) := by
  refine ⟨?_, ?_, ?_, ?_⟩
  · intro E config st now hp qp rid auth k body status rbody sup hstream hallow hkey hbad
    simp only [proxyOpenAI, hallow, hkey, hstream]
    rw [if_pos (Or.inl hbad)]
    simp
  · intro E config st now hp qp rid auth k body up status hasBody errText chunks
      hstream hallow hkey hbad
    simp only [proxyOpenAI, proxyOpenAIStream, hallow, hkey, hstream]
    rw [if_pos (Or.inl hbad)]
    simp
  · intro E config st now hp qp rid auth k body status rbody sup hstream hallow hkey hbad
    simp only [proxyAnthropic, hallow, hkey, hstream]
    rw [if_pos (Or.inl hbad)]
    simp
  · intro E config st now hp qp rid auth k body up status hasBody errText chunks
      hstream hallow hkey hbad
    simp only [proxyAnthropic, proxyAnthropicStream, hallow, hkey, hstream]
    rw [if_pos (Or.inl hbad)]
    simp

/-- Witness for C6 amended: buffered 500 reply echoed with estimate
headers and unchanged state. -/
theorem c6_upstream_error_witness :
    proxyOpenAI (fun _ _ => 0) ⟨some "k", none, "d"⟩ emptyLedger 0 none none "r" none
        (some ⟨"gpt-4o", [], some 200000, false, none, none⟩)
        (.reply 500 ⟨"eb", true, none⟩) .netError =
      ⟨500, .upstreamEcho ⟨"eb", true, none⟩,
        addTokencapHeaders noHeaders
          (estimateOpenAICost (fun _ _ => 0) ⟨"gpt-4o", [], some 200000, false, none, none⟩)
          none none, true, emptyLedger⟩ :=
  c6_upstream_error.1 (fun _ _ => 0) ⟨some "k", none, "d"⟩ emptyLedger 0 none none "r"
    none "k" ⟨"gpt-4o", [], some 200000, false, none, none⟩ 500 ⟨"eb", true, none⟩
    .netError rfl rfl rfl (by norm_num)

/-- The 26 lowercase ASCII letters. -/
def lcLetters : List Char :=
  ['a', 'b', 'c', 'd', 'e', 'f', 'g', 'h', 'i', 'j', 'k', 'l', 'm',
   'n', 'o', 'p', 'q', 'r', 's', 't', 'u', 'v', 'w', 'x', 'y', 'z']

/-- The lowercase 8-letter string indexed by a tuple of letters. -/
def octString (a : Fin 8 → Fin 26) : String :=
  String.mk (List.ofFn (fun i => lcLetters.get (Fin.cast (by rfl) (a i))))

/-- octString strings have length 8. -/
theorem octString_length (a : Fin 8 → Fin 26) : (octString a).length = 8 := by
  simp [octString, String.length]

/-- octString strings are ASCII. -/
theorem octString_ascii (a : Fin 8 → Fin 26) : isAsciiString (octString a) = true := by
  simp only [isAsciiString, octString, List.all_eq_true]
  intro c hc
  simp only [List.mem_ofFn] at hc
  obtain ⟨i, rfl⟩ := hc
  have h : ∀ c ∈ lcLetters, c.toNat < 128 := by decide
  simpa using h _ (List.get_mem lcLetters _ _)

/-- Distinct letter tuples give distinct strings. -/
theorem octString_injective : Function.Injective octString := by
  intro a b h
  have hdata := congrArg String.data h
  simp only [octString] at hdata
  rw [List.ofFn_inj] at hdata
  funext i
  have hi := congrFun hdata i
  have hget : Function.Injective lcLetters.get :=
    List.nodup_iff_injective_get.mp (by decide)
  have h2 := hget hi
  exact Fin.ext (congrArg Fin.val h2)

/-- Concatenating a two-element list. -/
theorem concatAll_pair (t1 t2 : String) : concatAll [t1, t2] = t1 ++ t2 := by
  apply String.ext
  simp [concatAll]

/-- Counterexample to C5: no BPE encoder with a vocabulary of at most
200000 entries can reproduce the interceptor's counts.  If one did,
every 8-letter lowercase string would tokenize into exactly 2 =
ceil(8/4) vocabulary entries, embedding all 26^8 such strings into
vocabulary pairs, of which there are at most 200000^2 < 26^8.  The
interceptor in fact uses the ceil(length/4) character heuristic and
never consults an encoder. -/
theorem c5_counterexample : ¬ ∃ T : BpeTokenizer, StreamCountClaim T := by
  rintro ⟨T, hT⟩
  have hlen2 : ∀ a : Fin 8 → Fin 26, (T.toks (octString a)).length = 2 := by
    intro a
    have h := hT [OSSELine.data false (some (octString a))]
    simp only [openAIStreamOutputTokens, specStreamOutputTokens, bpeLen,
      List.foldl_cons, List.foldl_nil, octString_length] at h
    omega
  have hpair : ∀ a : Fin 8 → Fin 26, ∃ t1 t2, T.toks (octString a) = [t1, t2] :=
    fun a => List.length_eq_two.mp (hlen2 a)
  classical
  let f : (Fin 8 → Fin 26) → String × String :=
    fun a => ((hpair a).choose, (hpair a).choose_spec.choose)
  have hf : ∀ a, T.toks (octString a) = [(f a).1, (f a).2] :=
    fun a => (hpair a).choose_spec.choose_spec
  have hmem : ∀ a, f a ∈ T.vocab ×ˢ T.vocab := by
    intro a
    rw [Finset.mem_product]
    constructor
    · apply T.toks_mem (octString a) (octString_ascii a)
      rw [hf a]
      simp
    · apply T.toks_mem (octString a) (octString_ascii a)
      rw [hf a]
      simp
  have hjoin : ∀ a, (f a).1 ++ (f a).2 = octString a := by
    intro a
    have h := T.toks_join (octString a) (octString_ascii a)
    rw [hf a, concatAll_pair] at h
    exact h
  let g : (Fin 8 → Fin 26) → ↥(T.vocab ×ˢ T.vocab) := fun a => ⟨f a, hmem a⟩
  have hginj : Function.Injective g := by
    intro a b hab
    have h1 : f a = f b := congrArg Subtype.val hab
    have h2 : octString a = octString b := by
      rw [← hjoin a, ← hjoin b, h1]
    exact octString_injective h2
  have hcard := Fintype.card_le_of_injective g hginj
  rw [Fintype.card_fun, Fintype.card_coe, Finset.card_product] at hcard
  simp only [Fintype.card_fin] at hcard
  have hv : T.vocab.card * T.vocab.card ≤ 200000 * 200000 :=
    Nat.mul_le_mul T.vocab_card T.vocab_card
  have : (26 : ℕ) ^ 8 ≤ 200000 * 200000 := le_trans hcard hv
  norm_num at this

/-- The per-line count the interceptor actually uses:
ceil(content.length / 4) on parsed delta content of non-[DONE] data
lines, 0 elsewhere. -/
def lineCharCount : OSSELine → ℕ
  | .data false (some c) => (c.length + 3) / 4
  | _ => 0

/-- C5 amended: the accumulated output-token count is the sum over SSE
data lines (excluding the [DONE] sentinel and unparsable lines) of
ceil(content.length / 4) - a characters/4 heuristic, not a BPE count -
and on clean stream completion the ledger is charged exactly that
count together with the pre-execution estimate's input tokens. -/
theorem c5_stream_charge :
    (∀ lines : List OSSELine,
      openAIStreamOutputTokens lines = (lines.map lineCharCount).sum)
    ∧ (∀ (body : OpenAIChatRequest) (est : CostEstimate) (pid rid : String)
        (st : LedgerState) (status : ℕ) (errText : String)
        (chunks : List (List OSSELine)),
      200 ≤ status ∧ status < 300 →
      proxyOpenAIStream body est pid rid st (.reply status true errText chunks) =
        ⟨200, .streamOpenAI chunks,
          ⟨true, some est.inputTokens, some est.estimatedOutputTokens,
            some est.totalEstimatedCostUsd, none, none, none, none⟩,
          true,
          recordUsage st pid .openai body.model est.inputTokens
            (openAIStreamOutputTokens chunks.flatten : ℤ)
            (calculateCostByProvider .openai body.model est.inputTokens
              (openAIStreamOutputTokens chunks.flatten : ℤ)).totalCostUsd rid⟩) := by
  constructor
  · intro lines
    suffices h : ∀ acc, lines.foldl (fun acc l => match l with
        | OSSELine.data false (some c) => acc + (c.length + 3) / 4
        | _ => acc) acc = acc + (lines.map lineCharCount).sum by
      simpa [openAIStreamOutputTokens] using h 0
    induction lines with
    | nil => intro acc; simp
    | cons l rest ih =>
      intro acc
      cases l with
      | other => simpa [lineCharCount] using ih acc
      | data d c =>
        cases d with
        | true => simpa [lineCharCount] using ih acc
        | false =>
          cases c with
          | none => simpa [lineCharCount] using ih acc
          | some s =>
            simp only [List.foldl_cons, List.map_cons, List.sum_cons, lineCharCount, ih]
            omega
  · intro body est pid rid st status errText chunks hok
    simp only [proxyOpenAIStream]
    rw [if_neg (fun h => h.elim (fun h1 => h1 hok) (fun h2 => h2 trivial))]

/-- Witness for C5 amended: a one-chunk stream with content "hello". -/
theorem c5_stream_charge_witness :
    proxyOpenAIStream ⟨"gpt-4o", [], some 200000, true, none, none⟩
        ⟨.openai, "gpt-4o", 3, 150000, 8/1000000, 3/2, 1500008/1000000, .high⟩
        "d" "r" emptyLedger (.reply 200 true "" [[.data false (some "hello")]]) =
      ⟨200, .streamOpenAI [[.data false (some "hello")]],
        ⟨true, some 3, some 150000, some (1500008/1000000), none, none, none, none⟩,
        true,
        recordUsage emptyLedger "d" .openai "gpt-4o" 3
          (openAIStreamOutputTokens [[.data false (some "hello")]].flatten : ℤ)
          (calculateCostByProvider .openai "gpt-4o" 3
            (openAIStreamOutputTokens [[.data false (some "hello")]].flatten : ℤ)).totalCostUsd
          "r"⟩ :=
  c5_stream_charge.2 ⟨"gpt-4o", [], some 200000, true, none, none⟩
    ⟨.openai, "gpt-4o", 3, 150000, 8/1000000, 3/2, 1500008/1000000, .high⟩
    "d" "r" emptyLedger 200 "" [[.data false (some "hello")]] (by norm_num)

/-- Witness for C9: a store with one 3 USD usage row and a budget row
with spent 4; the endpoint reports the usage sum. -/
theorem c9_budget_endpoint_witness :
    ∃ v, getBudgetEndpoint ⟨[⟨"p", .openai, "m", 1, 2, 3, "r1", 0⟩],
        fun q => if q = "p" then some ⟨10, 4, 0, none, 0⟩ else none, 1⟩ "p" = some v
      ∧ v.spentUsd = totalCostOf ⟨[⟨"p", .openai, "m", 1, 2, 3, "r1", 0⟩],
          fun q => if q = "p" then some ⟨10, 4, 0, none, 0⟩ else none, 1⟩ "p" := by
  obtain ⟨v, h1, _, h3⟩ := c9_budget_endpoint.1
    ⟨[⟨"p", .openai, "m", 1, 2, 3, "r1", 0⟩],
      fun q => if q = "p" then some ⟨10, 4, 0, none, 0⟩ else none, 1⟩
    "p" ⟨10, 4, 0, none, 0⟩ (by rfl)
  exact ⟨v, h1, h3⟩
